import Mathlib

/-!
Shallow embedding of the EZVIZ Home Assistant integration
(`custom_components/ezviz_cloud`) for checking its natural-language
specification.

The embedding covers:
* `utility.py`: `coerce_int`, `coerce_bool` (over a model of dynamic Python
  values);
* `config_flow.py`: `_normalize_api_host`, `_resolve_api_host`,
  `_get_cam_enc_key`, `_get_cam_verification_code`, `_wake_camera`,
  `_test_camera_rtsp_creds`, `_test_rtsp_credentials`, `_make_prefill`, and
  the per-camera option record persisted by the camera-edit steps;
* `__init__.py`: the token-rotation write in `async_setup_entry` and the
  legacy-camera consolidation loop of `async_migrate_entry`;
* `coordinator.py`: the error classification of `_async_update_data`;
* the reauth data update of `async_step_reauth_confirm` / `async_step_reauth_mfa`.

Python dictionaries are modelled as association lists with first-match
lookup (Python dict keys are unique, which first-match lookup preserves for
all the operations used here).  Python string `strip` is modelled over the
ASCII whitespace characters recognised by `String.trim`; every concrete
string appearing in the repository is ASCII.  Exceptions are modelled with
`Except`; the pyezvizapi exception hierarchy (every library error class
derives from `PyEzvizError`) is reflected by the flat kind type `ErrKind`
together with the catch-clause dispatch written out at each `try` site in
source order.
-/

namespace HaEzviz

/-! ## Python values and dictionaries -/

/-- Finite-precision Python float, abstracted: a finite float is identified
with its exact rational value (every finite IEEE double is rational); `nan`
and `infinite` are kept symbolic because `int()` raises on them. -/
inductive FloatVal where
| finite (q : ℚ)
| nan
| infinite
deriving DecidableEq, Repr

/-- Dynamic Python value as it occurs in the payloads handled by this
integration.  `pOther` stands for any other object, carrying the text its
`str()` would produce (only `str(value)` is ever applied to it). -/
inductive PyVal where
| pNone
| pBool (b : Bool)
| pInt (n : Int)
| pFloat (f : FloatVal)
| pStr (s : String)
| pOther (str_repr : String)
deriving DecidableEq, Repr

/-- Value type for the config/option dictionaries of the flow: the flow code
only ever stores strings, booleans and `None` in the records the claims are
about. -/
inductive Val where
| vStr (s : String)
| vBool (b : Bool)
| vNone
deriving DecidableEq, Repr

/-- Python `dict` with string keys, as an association list (unique keys in
all states the code builds; lookup is first-match). -/
abbrev Dict := List (String × Val)

/-- Python `d.get(key)` / `d[key]` lookup (`none` models a missing key). -/
def dget : Dict → String → Option Val
| [], _ => none
| (k, v) :: rest, key => if k = key then some v else dget rest key

/-- Python `d[key] = value`: replace in place, or append a new binding. -/
def dset : Dict → String → Val → Dict
| [], key, value => [(key, value)]
| (k, v) :: rest, key, value =>
  if k = key then (k, value) :: rest else (k, v) :: dset rest key value

/-- Python `d.pop(key, None)`: drop the binding for `key`.  (All
occurrences are removed; on the unique-key dicts Python builds this is the
same as removing the one binding.) -/
def dpop : Dict → String → Dict
| [], _ => []
| (k, v) :: rest, key => if k = key then dpop rest key else (k, v) :: dpop rest key

/-- Python `key in d`. -/
def dmem (d : Dict) (key : String) : Bool := (dget d key).isSome

/-- Python truthiness of a `Val`. -/
def Val.truthy : Val → Bool
| .vStr s => decide (s ≠ "")
| .vBool b => b
| .vNone => false

/-- Python truthiness of the result of `d.get(key)` (missing key is falsy). -/
def otruthy : Option Val → Bool
| none => false
| some v => v.truthy

/-! ## Python string primitives

Implemented over `List Char` so that every definition reduces in the
kernel.  Python `str.strip()` is modelled over the ASCII whitespace
characters; every string the repository manipulates is ASCII. -/

/-- ASCII whitespace stripped by Python `str.strip()`. -/
def isPySpace (c : Char) : Bool :=
  c = ' ' || c = '\t' || c = '\n' || c = '\r' || c = '\x0b' || c = '\x0c'

/-- Python `s.strip()` on a character list. -/
def pyStripList (l : List Char) : List Char :=
  ((l.dropWhile isPySpace).reverse.dropWhile isPySpace).reverse

/-- Python `s.strip()`. -/
def pyStrip (s : String) : String := String.mk (pyStripList s.toList)

/-- Does `l` begin with `p`? (Python `startswith`.) -/
def beginsWith : List Char → List Char → Bool
| _, [] => true
| [], _ :: _ => false
| a :: as, b :: bs => a = b && beginsWith as bs

/-- ASCII `str.lower()` on one character. -/
def asciiLowerChar (c : Char) : Char :=
  if 'A' ≤ c ∧ c ≤ 'Z' then Char.ofNat (c.toNat + 32) else c

/-- ASCII `str.lower()`. -/
def asciiLower (s : String) : String :=
  String.mk (s.toList.map asciiLowerChar)

/-! ## Constants (`const.py`) -/

def DEFAULT_FETCH_MY_KEY : String := "fetch_my_key"
def CONF_ENC_KEY : String := "enc_key"
def CONF_PASSWORD : String := "password"
def CONF_USERNAME : String := "username"
def CONF_IP_ADDRESS : String := "ip_address"
def CONF_CAM_VERIFICATION_2FA_CODE : String := "cam_verification_2fa_code"
def CONF_CAM_ENC_2FA_CODE : String := "cam_encryption_2fa_code"
def CONF_RTSP_USES_VERIFICATION_CODE : String := "rtsp_uses_verification_code"
def CONF_FFMPEG_ARGUMENTS : String := "ffmpeg_arguments"
def ATTR_SERIAL : String := "serial"
def CLOUD_ACCOUNT_USERNAME : String := "cloud_account_username"
def EPHEMERAL_TEST_RTSP : String := "ephemeral_test_rtsp"
def DEFAULT_CAMERA_USERNAME : String := "admin"
def DEFAULT_FFMPEG_ARGUMENTS : String := "/Streaming/Channels/102"
def REGION_EU : String := "eu"
def REGION_RU : String := "ru"
def REGION_CUSTOM : String := "custom"
def EU_URL : String := "apiieu.ezvizlife.com"
def RUSSIA_URL : String := "apirus.ezvizru.com"

/-- Mapping used by the config flow to resolve API hostnames
(`REGION_URLS` in `const.py`). -/
def REGION_URLS : List (String × String) :=
  [(REGION_EU, EU_URL), (REGION_RU, RUSSIA_URL)]

/-! ## API host normalization (`config_flow.py` lines 80-97) -/

/-- The character stripped by `strip("/")`. -/
def isSlash (c : Char) : Bool := c = '/'

/-- Python `s.strip("/")` on a character list: drop leading and trailing
slash characters (and nothing else). -/
def stripSlashList (l : List Char) : List Char :=
  ((l.dropWhile isSlash).reverse.dropWhile isSlash).reverse

/-- Python `s.strip("/")`. -/
def stripSlash (s : String) : String := String.mk (stripSlashList s.toList)

/-- Embedding of `_normalize_api_host` (`config_flow.py` 80-87):
`v = (value or "").strip()`, remove one leading scheme, then
`v.strip().strip("/")`.  (`value or ""` is the identity on actual strings
up to the subsequent `strip`.) -/
def normalize_api_host (value : String) : String :=
  let l := pyStripList value.toList
  let l :=
    if beginsWith l ("http://".toList) then l.drop 7
    else if beginsWith l ("https://".toList) then l.drop 8
    else l
  String.mk (stripSlashList (pyStripList l))

/-- Errors surfaced by `_resolve_api_host`: `vol.Invalid("invalid_url")`,
or a `KeyError` from `REGION_URLS[region]` on an unknown region. -/
inductive HostError where
| invalidUrl
| keyError (k : String)
deriving DecidableEq, Repr

/-- Embedding of `_resolve_api_host` (`config_flow.py` 90-97). -/
def resolve_api_host (region : String) (custom_url : Option String) :
    Except HostError String :=
  if region = REGION_CUSTOM then
    let host := normalize_api_host (custom_url.getD "")
    if host = "" then .error .invalidUrl else .ok host
  else
    match REGION_URLS.lookup region with
    | some u => .ok u
    | none => .error (.keyError region)

/-! ## Payload coercion helpers (`utility.py` lines 24-51) -/

/-- Python exception raised by `int(...)`. -/
inductive PyExc where
| valueError
| overflowError
deriving DecidableEq, Repr

/-- Digit-run parser for Python `int(str)`: after the first digit, single
underscores are allowed between digits. -/
def parseDigitsCore : List Char → Nat → Option Nat
| [], acc => some acc
| '_' :: c :: rest, acc =>
  if c.isDigit then parseDigitsCore rest (acc * 10 + (c.toNat - 48)) else none
| c :: rest, acc =>
  if c.isDigit then parseDigitsCore rest (acc * 10 + (c.toNat - 48)) else none

/-- Nonempty digit run starting with a digit (Python rejects a leading or
trailing underscore and doubled underscores). -/
def parseDigits : List Char → Option Nat
| [] => none
| c :: rest =>
  if c.isDigit then parseDigitsCore rest (c.toNat - 48) else none

/-- Python `int(s)` for a `str` argument (ASCII): strip whitespace, optional
sign, digits.  `none` models the `ValueError` path. -/
def pyParseInt (s : String) : Option Int :=
  match pyStripList s.toList with
  | '+' :: rest => (parseDigits rest).map (fun n => (n : Int))
  | '-' :: rest => (parseDigits rest).map (fun n => -(n : Int))
  | rest => (parseDigits rest).map (fun n => (n : Int))

/-- Python `int(f)` truncation toward zero for a finite float value. -/
def floatTrunc (q : ℚ) : Int := if q < 0 then -(⌊-q⌋) else ⌊q⌋

/-- Python `str(value)` as used by `coerce_int` (only the branches that can
reach `int(str(value))` matter: `bool`/`int`/`float` are intercepted by the
`isinstance` checks before it). -/
def pyStr : PyVal → String
| .pNone => "None"
| .pBool b => if b then "True" else "False"
| .pInt n => toString n
| .pFloat _ => ""
| .pStr s => s
| .pOther r => r

/-- Embedding of `coerce_int` (`utility.py` 24-34).  The `try` around
`int(str(value))` catches `TypeError`/`ValueError`; the `int(value)` call on
a `float` is outside the `try`, so `int(nan)` (`ValueError`) and
`int(inf)` (`OverflowError`) escape. -/
def coerce_int : PyVal → Except PyExc (Option Int)
| .pBool b => .ok (some (if b then 1 else 0))
| .pInt n => .ok (some n)
| .pFloat (.finite q) => .ok (some (floatTrunc q))
| .pFloat .nan => .error .valueError
| .pFloat .infinite => .error .overflowError
| v =>
  match pyParseInt (pyStr v) with
  | some n => .ok (some n)
  | none => .ok none

/-- String forms recognised as `True` by `coerce_bool`. -/
def trueStrings : List String := ["1", "true", "yes", "on"]

/-- String forms recognised as `False` by `coerce_bool`. -/
def falseStrings : List String := ["0", "false", "no", "off"]

/-- Embedding of `coerce_bool` (`utility.py` 36-51).  A numeric value is
compared against `0` and `1` with Python `==` (exact value comparison, so a
non-finite float matches neither); strings are trimmed and lowercased. -/
def coerce_bool : PyVal → Option Bool
| .pBool b => some b
| .pInt n => if n = 0 then some false else if n = 1 then some true else none
| .pFloat (.finite q) =>
  if q = 0 then some false else if q = 1 then some true else none
| .pStr s =>
  let lowered := asciiLower (pyStrip s)
  if lowered ∈ trueStrings then some true
  else if lowered ∈ falseStrings then some false
  else none
| _ => none

/-! ## Login token and entry data (`__init__.py` 122-131, reauth steps) -/

/-- Token dict returned by `client.login` (wire format: the fields the
integration reads, plus the api url the server echoes, which the claims
about host stability are about). -/
structure Token where
  session_id : String
  rf_session_id : String
  api_url : String
  user_name : String
deriving DecidableEq, Repr

/-- Embedding of the token-rotation persistence decision of
`async_setup_entry` (`__init__.py` 122-131): build `to_update` field by
field; a config-entry write happens iff `to_update` is nonempty, and the
write merges `to_update` over the stored data.  Returns `none` when no
write is performed, `some newData` when one is. -/
def setup_entry_rotation (stored : Dict) (token : Token) : Option Dict :=
  let upd_sid :=
    if token.session_id ≠ "" ∧ some (Val.vStr token.session_id) ≠ dget stored "session_id"
    then some token.session_id else none
  let upd_rf :=
    if token.rf_session_id ≠ "" ∧ some (Val.vStr token.rf_session_id) ≠ dget stored "rf_session_id"
    then some token.rf_session_id else none
  if upd_sid = none ∧ upd_rf = none then none
  else
    let d := match upd_sid with
      | some s => dset stored "session_id" (.vStr s)
      | none => stored
    let d := match upd_rf with
      | some r => dset d "rf_session_id" (.vStr r)
      | none => d
    some d

/-- Embedding of the `new_data` built by `async_step_reauth_confirm`
(`config_flow.py` 362-366): `{**entry.data, session_id, rf_session_id}`. -/
def reauth_confirm_new_data (old : Dict) (token : Token) : Dict :=
  dset (dset old "session_id" (.vStr token.session_id))
    "rf_session_id" (.vStr token.rf_session_id)

/-- Embedding of the `new_data` built by `async_step_reauth_mfa`
(`config_flow.py` 409-413): textually the same dict expression. -/
def reauth_mfa_new_data (old : Dict) (token : Token) : Dict :=
  dset (dset old "session_id" (.vStr token.session_id))
    "rf_session_id" (.vStr token.rf_session_id)

/-! ## pyezvizapi exceptions -/

/-- Kinds of pyezvizapi exceptions appearing in the integration.  In the
library every one of these classes derives from `PyEzvizError`, which the
catch-clause dispatch below relies on. -/
inductive ErrKind where
| authVerificationCode
| authTokenExpired
| deviceException
| authTestResultFailed
| pyEzvizError
| invalidURL
| httpError
deriving DecidableEq, Repr

/-- A raised Python exception: a pyezvizapi error (optionally carrying a
`.data` attribute attached by `_test_rtsp_credentials`), or a `KeyError`
from a direct dict index. -/
inductive PyErr where
| ez (k : ErrKind) (data : Option Dict)
| keyError (key : String)
deriving DecidableEq, Repr

/-! ## Coordinator refresh (`coordinator.py` 56-77) -/

/-- Python negative-index slice `s[-a:-b]` (with `b = 0` meaning `s[-a:]`),
clamped the way Python clamps out-of-range slice bounds. -/
def pySliceNeg (s : String) (a b : Nat) : String :=
  let l := s.toList
  let n := l.length
  let start := n - a
  let stop := n - b
  String.mk ((l.drop start).take (stop - start))

/-- Fake MAC generated by `_async_update_data` when `use_ezvizapi_mac` is
false: `f"65:63:3A:{serial[-2:]}:{serial[-4:-2]}:{serial[-6:-4]}"`. -/
def fakeMac (serial : String) : String :=
  "65:63:3A:" ++ pySliceNeg serial 2 0 ++ ":" ++ pySliceNeg serial 4 2 ++ ":"
    ++ pySliceNeg serial 6 4

/-- The per-device MAC adjustment loop of `_async_update_data`. -/
def macAdjust (useEzvizapiMac : Bool) (raw : List (String × Dict)) :
    List (String × Dict) :=
  if useEzvizapiMac then raw
  else raw.map (fun p => (p.1, dset p.2 "mac_address" (.vStr (fakeMac p.1))))

/-- Outcome of one coordinator refresh as seen by Home Assistant. -/
inductive UpdateOutcome where
| success (data : List (String × Dict))
| configEntryAuthFailed
| updateFailed
| uncaught (e : PyErr)
deriving DecidableEq, Repr

/-- Embedding of `_async_update_data` (`coordinator.py` 56-77): run
`load_cameras` (its outcome is the `fetch` argument), adjust MAC addresses
on success, and classify errors by the two catch clauses
(`(EzvizAuthTokenExpired, EzvizAuthVerificationCode)` first, then
`(InvalidURL, HTTPError, PyEzvizError)`, which catches every remaining
pyezvizapi error since they all derive from `PyEzvizError`). -/
def async_update_data (useEzvizapiMac : Bool)
    (fetch : Except PyErr (List (String × Dict))) : UpdateOutcome :=
  match fetch with
  | .ok raw => .success (macAdjust useEzvizapiMac raw)
  | .error (.ez .authTokenExpired _) => .configEntryAuthFailed
  | .error (.ez .authVerificationCode _) => .configEntryAuthFailed
  | .error (.ez _ _) => .updateFailed
  | .error e => .uncaught e

/-! ## Entry migration (`__init__.py` 181-244) -/

/-- A legacy per-camera config entry: its `data` and `options` dicts. -/
structure LegacyCamEntry where
  data : Dict
  options : Dict
deriving DecidableEq, Repr

/-- Errors raised by the consolidation loop of `async_migrate_entry`:
`KeyError` for a missing `serial` key, `ValueError` for a duplicate. -/
inductive MigErr where
| missingSerial
| duplicateSerial (serial : Val)
deriving DecidableEq, Repr

/-- The camera record built for one legacy entry (`__init__.py` 217-229). -/
def legacyCamRecord (e : LegacyCamEntry) : Dict :=
  [(CONF_USERNAME, (dget e.data CONF_USERNAME).getD (.vStr DEFAULT_CAMERA_USERNAME)),
   (CONF_PASSWORD, (dget e.data CONF_PASSWORD).getD (.vStr DEFAULT_FETCH_MY_KEY)),
   (CONF_ENC_KEY, (dget e.data CONF_ENC_KEY).getD (.vStr DEFAULT_FETCH_MY_KEY)),
   (CONF_RTSP_USES_VERIFICATION_CODE,
     (dget e.data CONF_RTSP_USES_VERIFICATION_CODE).getD (.vBool false)),
   (CONF_FFMPEG_ARGUMENTS,
     (dget e.options CONF_FFMPEG_ARGUMENTS).getD (.vStr DEFAULT_FFMPEG_ARGUMENTS))]

/-- The consolidated cameras map: serial -> camera record.  Serial values
are whatever `cam_entry.data["serial"]` held (a string in practice, but the
loop never requires that). -/
abbrev CamMap := List (Val × Dict)

/-- Lookup in a `CamMap` (first match; keys are unique in all states the
loop builds, since a repeated key raises before insertion). -/
def cmGet : CamMap → Val → Option Dict
| [], _ => none
| (k, v) :: rest, key => if k = key then some v else cmGet rest key

/-- Embedding of the strict consolidation loop of `async_migrate_entry`
(`__init__.py` 211-229): `serial = cam_entry.data[ATTR_SERIAL]` (a
`KeyError` if missing), a `ValueError` on a serial already present in
`cameras_map`, and otherwise an insertion. -/
def migrate_consolidate (cameras_map : CamMap) :
    List LegacyCamEntry → Except MigErr CamMap
| [] => .ok cameras_map
| e :: rest =>
  match dget e.data ATTR_SERIAL with
  | none => .error .missingSerial
  | some serial =>
    if (cmGet cameras_map serial).isSome then .error (.duplicateSerial serial)
    else migrate_consolidate (cameras_map ++ [(serial, legacyCamRecord e)]) rest

/-! ## Per-camera credential resolution (`config_flow.py` 100-149, 733-813) -/

/-- One observable interaction of the flow with the executor / cloud /
device.  `fetchEncKey` / `fetchVerificationCode` mark the dispatch of the
`_get_cam_enc_key` / `_get_cam_verification_code` helpers to the executor;
the remaining events are the network calls themselves. -/
inductive CallEvent where
| fetchEncKey
| fetchVerificationCode
| getCamKey
| getCamAuthCode (senderType : Nat)
| send2faCheckCode (bizType : String)
| getDetectionSensibility
| rtspDescribe (ip user secret : Val)
deriving DecidableEq, Repr

/-- Responses of the cloud service and the device, as an oracle the
embedded flow consults (the claims quantify over all oracles). -/
structure Cloud where
  camKey : Option Val → Except PyErr Val
  camAuthCode : Option Val → Nat → Except PyErr Val
  send2fa : Except PyErr Unit
  detectionSensibility : Except PyErr Unit
  rtspTest : Val → Val → Val → Except PyErr Unit

/-- Embedding of `_get_cam_enc_key` (`config_flow.py` 118-125): a single
`get_cam_key(serial, smscode)` call, with no handler around it — any
`EzvizAuthVerificationCode` it raises propagates as-is, with no resend
request. -/
def get_cam_enc_key (cloud : Cloud) (data : Dict) (enc_2fa_code : Option Val) :
    Except PyErr Val × List CallEvent :=
  match dget data ATTR_SERIAL with
  | none => (.error (.keyError ATTR_SERIAL), [])
  | some _ => (cloud.camKey enc_2fa_code, [.getCamKey])

/-- Embedding of `_get_cam_verification_code` (`config_flow.py` 100-115):
`get_cam_auth_code(serial, msg_auth_code, sender_type)` with
`sender_type = 0 if verification_code else 3`; on
`EzvizAuthVerificationCode` it requests
`get_2fa_check_code(username, biz_type="DEVICE_AUTH_CODE")` and re-raises a
fresh `EzvizAuthVerificationCode`. -/
def get_cam_verification_code (cloud : Cloud) (data : Dict)
    (verification_code : Option Val) : Except PyErr Val × List CallEvent :=
  match dget data ATTR_SERIAL with
  | none => (.error (.keyError ATTR_SERIAL), [])
  | some _ =>
    let senderType := if otruthy verification_code then 0 else 3
    match cloud.camAuthCode verification_code senderType with
    | .ok v => (.ok v, [.getCamAuthCode senderType])
    | .error (.ez .authVerificationCode _) =>
      match dget data CLOUD_ACCOUNT_USERNAME with
      | none =>
        (.error (.keyError CLOUD_ACCOUNT_USERNAME), [.getCamAuthCode senderType])
      | some _ =>
        match cloud.send2fa with
        | .ok _ =>
          (.error (.ez .authVerificationCode none),
           [.getCamAuthCode senderType, .send2faCheckCode "DEVICE_AUTH_CODE"])
        | .error e2 =>
          (.error e2,
           [.getCamAuthCode senderType, .send2faCheckCode "DEVICE_AUTH_CODE"])
    | .error e => (.error e, [.getCamAuthCode senderType])

/-- Embedding of `_test_camera_rtsp_creds` (`config_flow.py` 128-137):
RTSP DESCRIBE with either the verification code (`password`) or the
encryption key, selected by `data[CONF_RTSP_USES_VERIFICATION_CODE]`. -/
def test_camera_rtsp_creds (cloud : Cloud) (data : Dict) :
    Except PyErr Unit × List CallEvent :=
  match dget data CONF_RTSP_USES_VERIFICATION_CODE with
  | none => (.error (.keyError CONF_RTSP_USES_VERIFICATION_CODE), [])
  | some flag =>
    match dget data CONF_IP_ADDRESS with
    | none => (.error (.keyError CONF_IP_ADDRESS), [])
    | some ip =>
      match dget data CONF_USERNAME with
      | none => (.error (.keyError CONF_USERNAME), [])
      | some user =>
        match dget data (if flag.truthy then CONF_PASSWORD else CONF_ENC_KEY) with
        | none =>
          (.error (.keyError
            (if flag.truthy then CONF_PASSWORD else CONF_ENC_KEY)), [])
        | some secret =>
          match cloud.rtspTest ip user secret with
          | .ok _ => (.ok (), [.rtspDescribe ip user secret])
          | .error e => (.error e, [.rtspDescribe ip user secret])

/-- Embedding of `_wake_camera` (`config_flow.py` 140-143): safe ping, then
the RTSP DESCRIBE test. -/
def wake_camera (cloud : Cloud) (data : Dict) :
    Except PyErr Unit × List CallEvent :=
  match dget data ATTR_SERIAL with
  | none => (.error (.keyError ATTR_SERIAL), [])
  | some _ =>
    match cloud.detectionSensibility with
    | .error e => (.error e, [.getDetectionSensibility])
    | .ok _ =>
      let (r, tr) := test_camera_rtsp_creds cloud data
      (r, .getDetectionSensibility :: tr)

/-- Third step of the `try` body of `_test_rtsp_credentials`
(`config_flow.py` 767-772): the opt-in wake + RTSP probe.  An error carries
the dict as mutated so far. -/
def rtspStage3 (cloud : Cloud) (d : Dict) :
    Except (PyErr × Dict) Dict × List CallEvent :=
  if otruthy (dget d EPHEMERAL_TEST_RTSP) then
    match wake_camera cloud d with
    | (.error e, tr) => (.error (e, d), tr)
    | (.ok _, tr) => (.ok d, tr)
  else (.ok d, [])

/-- Second step of the `try` body of `_test_rtsp_credentials`
(`config_flow.py` 755-765): fetch the verification code when the password
field holds the sentinel, then continue with the probe step. -/
def rtspStage2 (cloud : Cloud) (d : Dict) :
    Except (PyErr × Dict) Dict × List CallEvent :=
  if dget d CONF_PASSWORD = some (.vStr DEFAULT_FETCH_MY_KEY) then
    match get_cam_verification_code cloud d (dget d CONF_CAM_VERIFICATION_2FA_CODE) with
    | (.error e, tr) => (.error (e, d), .fetchVerificationCode :: tr)
    | (.ok v, tr) =>
      let (r, tr3) := rtspStage3 cloud (dset d CONF_PASSWORD v)
      (r, .fetchVerificationCode :: tr ++ tr3)
  else rtspStage3 cloud d

/-- First step of the `try` body of `_test_rtsp_credentials`
(`config_flow.py` 745-753): fetch the encryption key when the `enc_key`
field holds the sentinel, then continue. -/
def rtspStage1 (cloud : Cloud) (d : Dict) :
    Except (PyErr × Dict) Dict × List CallEvent :=
  if dget d CONF_ENC_KEY = some (.vStr DEFAULT_FETCH_MY_KEY) then
    match get_cam_enc_key cloud d (dget d CONF_CAM_ENC_2FA_CODE) with
    | (.error e, tr) => (.error (e, d), .fetchEncKey :: tr)
    | (.ok v, tr) =>
      let (r, tr2) := rtspStage2 cloud (dset d CONF_ENC_KEY v)
      (r, .fetchEncKey :: tr ++ tr2)
  else rtspStage2 cloud d

/-- Catch-clause dispatch of `_test_rtsp_credentials` (`config_flow.py`
774-804), in source order: `EzvizAuthVerificationCode` is re-raised
unchanged (bare `raise`); `DeviceException` and `AuthTestResultFailed` are
re-raised as fresh exceptions with `.data` attached; every remaining
pyezvizapi error is caught by the final `except PyEzvizError` clause (all
its subclasses included) and re-raised as a `PyEzvizError` with `.data`
attached; a `KeyError` is not caught here. -/
def wrapTestError (e : PyErr) (d : Dict) : PyErr :=
  match e with
  | .ez .authVerificationCode d0 => .ez .authVerificationCode d0
  | .ez .deviceException _ => .ez .deviceException (some d)
  | .ez .authTestResultFailed _ => .ez .authTestResultFailed (some d)
  | .ez _ _ => .ez .pyEzvizError (some d)
  | .keyError k => .keyError k

/-- The ephemeral-value removal on the success path of
`_test_rtsp_credentials` (`config_flow.py` 806-813): four `pop(key, None)`
calls and one strict `pop("cloud_account_username")` (a `KeyError` when the
key is absent). -/
def finalizeResolved (d : Dict) : Except PyErr Dict :=
  let d1 := dpop d CONF_CAM_VERIFICATION_2FA_CODE
  let d2 := dpop d1 CONF_CAM_ENC_2FA_CODE
  let d3 := dpop d2 EPHEMERAL_TEST_RTSP
  let d4 := dpop d3 CONF_IP_ADDRESS
  if dmem d4 CLOUD_ACCOUNT_USERNAME then .ok (dpop d4 CLOUD_ACCOUNT_USERNAME)
  else .error (.keyError CLOUD_ACCOUNT_USERNAME)

/-- Embedding of `_test_rtsp_credentials` (`config_flow.py` 733-813). -/
def test_rtsp_credentials (cloud : Cloud) (data : Dict) :
    Except PyErr Dict × List CallEvent :=
  match rtspStage1 cloud data with
  | (.error (e, dcur), tr) => (.error (wrapTestError e dcur), tr)
  | (.ok d, tr) => (finalizeResolved d, tr)

/-- Python `d.get(key, fallback)` (presence-based defaulting). -/
def dgetD (d : Dict) (k : String) (fallback : Val) : Val := (dget d k).getD fallback

/-- Embedding of `_make_prefill` in `async_step_camera_edit`
(`config_flow.py` 513-550): `src` wins, then `ui`, then the stored
per-camera record / defaults (`src or {}` and `ui or {}` behave like the
empty dict for `None`). -/
def make_prefill (per_cam : Dict) (test_rtsp_default : Bool)
    (src ui : Option Dict) : Dict :=
  let s := src.getD []
  let u := ui.getD []
  [(CONF_USERNAME,
     dgetD s CONF_USERNAME (dgetD u CONF_USERNAME
       (dgetD per_cam CONF_USERNAME (.vStr DEFAULT_CAMERA_USERNAME)))),
   (CONF_PASSWORD,
     dgetD s CONF_PASSWORD (dgetD u CONF_PASSWORD (.vStr DEFAULT_FETCH_MY_KEY))),
   (CONF_ENC_KEY,
     dgetD s CONF_ENC_KEY (dgetD u CONF_ENC_KEY
       (dgetD per_cam CONF_ENC_KEY (.vStr DEFAULT_FETCH_MY_KEY)))),
   (CONF_RTSP_USES_VERIFICATION_CODE,
     dgetD s CONF_RTSP_USES_VERIFICATION_CODE
       (dgetD u CONF_RTSP_USES_VERIFICATION_CODE
         (dgetD per_cam CONF_RTSP_USES_VERIFICATION_CODE (.vBool false)))),
   (CONF_FFMPEG_ARGUMENTS,
     dgetD s CONF_FFMPEG_ARGUMENTS (dgetD u CONF_FFMPEG_ARGUMENTS
       (dgetD per_cam CONF_FFMPEG_ARGUMENTS (.vStr DEFAULT_FFMPEG_ARGUMENTS)))),
   (EPHEMERAL_TEST_RTSP, dgetD u EPHEMERAL_TEST_RTSP (.vBool test_rtsp_default))]

/-- The per-camera options record written on a successful camera edit
(`config_flow.py` 566-579 and 667-678): the four required fields are read
with direct indexing (a `KeyError` when absent), the RTSP path falls back
to the previously stored value, then the default. -/
def persisted_cam_record (resolved : Dict) (cams_old_entry : Dict) :
    Except PyErr Dict :=
  match dget resolved CONF_USERNAME with
  | none => .error (.keyError CONF_USERNAME)
  | some u =>
    match dget resolved CONF_PASSWORD with
    | none => .error (.keyError CONF_PASSWORD)
    | some p =>
      match dget resolved CONF_ENC_KEY with
      | none => .error (.keyError CONF_ENC_KEY)
      | some ek =>
        match dget resolved CONF_RTSP_USES_VERIFICATION_CODE with
        | none => .error (.keyError CONF_RTSP_USES_VERIFICATION_CODE)
        | some flag =>
          .ok [(CONF_USERNAME, u), (CONF_PASSWORD, p), (CONF_ENC_KEY, ek),
               (CONF_RTSP_USES_VERIFICATION_CODE, flag),
               (CONF_FFMPEG_ARGUMENTS,
                 dgetD resolved CONF_FFMPEG_ARGUMENTS
                   (dgetD cams_old_entry CONF_FFMPEG_ARGUMENTS
                     (.vStr DEFAULT_FFMPEG_ARGUMENTS)))]

/-- The encryption-key step of `_test_rtsp_credentials` raised: the
`enc_key` field held the fetch sentinel and the dispatched
`_get_cam_enc_key` call ended in an exception (aborting the rest of the
`try` body). -/
def encStepRaised (cloud : Cloud) (d : Dict) : Prop :=
  dget d CONF_ENC_KEY = some (.vStr DEFAULT_FETCH_MY_KEY) ∧
  ∃ e, (get_cam_enc_key cloud d (dget d CONF_CAM_ENC_2FA_CODE)).1 = .error e

/-- The input shapes `coerce_bool` recognises: a bool, a numeric value
equal to `0` or `1`, or a string whose trimmed lowercase form is one of the
accepted spellings. -/
def recognizedBoolRep (v : PyVal) : Prop :=
  (∃ b, v = .pBool b) ∨ v = .pInt 0 ∨ v = .pInt 1 ∨
  v = .pFloat (.finite 0) ∨ v = .pFloat (.finite 1) ∨
  (∃ s, v = .pStr s ∧
    (asciiLower (pyStrip s) ∈ trueStrings ∨
     asciiLower (pyStrip s) ∈ falseStrings))

/-! # Theorems

First the generic dictionary lemmas shared by several claims, then the
per-claim theorems. -/

/-- Lookup after assignment, same key. -/
theorem dget_dset_same (d : Dict) (k : String) (v : Val) :
    dget (dset d k v) k = some v := by
  induction d with
  | nil => simp [dset, dget]
  | cons p rest ih =>
    obtain ⟨k0, v0⟩ := p
    by_cases h : k0 = k
    · simp [dset, dget, h]
    · simp [dset, dget, h, ih]

/-- Lookup after assignment, other key. -/
theorem dget_dset_other (d : Dict) (k k' : String) (v : Val) (h : k' ≠ k) :
    dget (dset d k v) k' = dget d k' := by
  induction d with
  | nil => simp [dset, dget, Ne.symm h]
  | cons p rest ih =>
    obtain ⟨k0, v0⟩ := p
    by_cases h0 : k0 = k
    · subst h0
      simp [dset, dget, Ne.symm h]
    · by_cases h1 : k0 = k'
      · subst h1
        simp [dset, dget, h0]
      · simp [dset, dget, h0, h1, ih]

/-- Lookup after removal, same key. -/
theorem dget_dpop_same (d : Dict) (k : String) : dget (dpop d k) k = none := by
  induction d with
  | nil => simp [dpop, dget]
  | cons p rest ih =>
    obtain ⟨k0, v0⟩ := p
    by_cases h : k0 = k
    · simp [dpop, dget, h, ih]
    · simp [dpop, dget, h, ih]

/-- Lookup after removal, other key. -/
theorem dget_dpop_other (d : Dict) (k k' : String) (h : k' ≠ k) :
    dget (dpop d k) k' = dget d k' := by
  induction d with
  | nil => simp [dpop]
  | cons p rest ih =>
    obtain ⟨k0, v0⟩ := p
    by_cases h0 : k0 = k
    · subst h0
      simp [dpop, dget, Ne.symm h, ih]
    · by_cases h1 : k0 = k'
      · subst h1
        simp [dpop, dget, h0]
      · simp [dpop, dget, h0, h1, ih]

/-! ## C10 — totality of the coercion helpers -/

/-- C10 counterexample: `coerce_int` is not total — on the non-finite
floats the uncaught `int(value)` call raises (`ValueError` for `nan`,
`OverflowError` for `inf`), refuting "for every input value, coerce_int
returns either an int or None and never raises". -/
theorem C10_counterexample :
    coerce_int (.pFloat .nan) = .error .valueError ∧
    coerce_int (.pFloat .infinite) = .error .overflowError :=
  ⟨rfl, rfl⟩

/-- C10 amended: for every input other than a non-finite float,
`coerce_int` returns an int or `None` and never raises (booleans map to
`0`/`1`, ints to themselves, integer-parsable strings to their value, other
string-convertible inputs to `None`); `coerce_bool` returns `true`/`false`
only for the recognised representations (bool, numeric `0`/`1`, accepted
string spellings after trim+lowercase) and `None` otherwise, in particular
for every integer other than `0` and `1`. -/
theorem C10_coercion_totality :
    (∀ v : PyVal, v ≠ .pFloat .nan → v ≠ .pFloat .infinite →
      ∃ r, coerce_int v = .ok r) ∧
    (∀ b, coerce_int (.pBool b) = .ok (some (if b then 1 else 0))) ∧
    (∀ n : Int, coerce_int (.pInt n) = .ok (some n)) ∧
    (∀ s n, pyParseInt s = some n → coerce_int (.pStr s) = .ok (some n)) ∧
    (∀ s, pyParseInt s = none → coerce_int (.pStr s) = .ok none) ∧
    (∀ v b, coerce_bool v = some b → recognizedBoolRep v) ∧
    (∀ n : Int, n ≠ 0 → n ≠ 1 → coerce_bool (.pInt n) = none) := by
  refine ⟨?_, ?_, ?_, ?_, ?_, ?_, ?_⟩
  · intro v h1 h2
    match v with
    | .pNone => exact ⟨none, rfl⟩
    | .pBool b => exact ⟨some (if b then 1 else 0), rfl⟩
    | .pInt n => exact ⟨some n, rfl⟩
    | .pFloat (.finite q) => exact ⟨some (floatTrunc q), rfl⟩
    | .pFloat .nan => exact absurd rfl h1
    | .pFloat .infinite => exact absurd rfl h2
    | .pStr s =>
      cases h : pyParseInt s with
      | none => exact ⟨none, by simp [coerce_int, pyStr, h]⟩
      | some n => exact ⟨some n, by simp [coerce_int, pyStr, h]⟩
    | .pOther r =>
      cases h : pyParseInt r with
      | none => exact ⟨none, by simp [coerce_int, pyStr, h]⟩
      | some n => exact ⟨some n, by simp [coerce_int, pyStr, h]⟩
  · intro b; rfl
  · intro n; rfl
  · intro s n h; simp [coerce_int, pyStr, h]
  · intro s h; simp [coerce_int, pyStr, h]
  · intro v b h
    match v with
    | .pBool b0 => exact Or.inl ⟨b0, rfl⟩
    | .pInt n =>
      simp only [coerce_bool] at h
      split at h
      · subst_vars; exact Or.inr (Or.inl rfl)
      · split at h
        · subst_vars; exact Or.inr (Or.inr (Or.inl rfl))
        · exact absurd h (by simp)
    | .pFloat (.finite q) =>
      simp only [coerce_bool] at h
      split at h
      · subst_vars
        exact Or.inr (Or.inr (Or.inr (Or.inl rfl)))
      · split at h
        · subst_vars
          exact Or.inr (Or.inr (Or.inr (Or.inr (Or.inl rfl))))
        · exact absurd h (by simp)
    | .pFloat .nan => exact absurd h (by simp [coerce_bool])
    | .pFloat .infinite => exact absurd h (by simp [coerce_bool])
    | .pNone => exact absurd h (by simp [coerce_bool])
    | .pOther r => exact absurd h (by simp [coerce_bool])
    | .pStr s =>
      simp only [coerce_bool] at h
      refine Or.inr (Or.inr (Or.inr (Or.inr (Or.inr ⟨s, rfl, ?_⟩))))
      split at h
      · exact Or.inl (by assumption)
      · split at h
        · exact Or.inr (by assumption)
        · exact absurd h (by simp)
  · intro n h0 h1
    simp [coerce_bool, h0, h1]

/-- C10 witness: the amended theorem applied at concrete inputs. -/
theorem C10_coercion_totality_witness :
    coerce_int (.pStr " 42 ") = .ok (some 42) ∧
    coerce_int (.pStr "abc") = .ok none ∧
    recognizedBoolRep (.pStr " TRUE ") ∧
    coerce_bool (.pInt 2) = none := by
  refine ⟨?_, ?_, ?_, ?_⟩
  · exact C10_coercion_totality.2.2.2.1 " 42 " 42 (by decide)
  · exact C10_coercion_totality.2.2.2.2.1 "abc" (by decide)
  · exact C10_coercion_totality.2.2.2.2.2.1 (.pStr " TRUE ") true (by decide)
  · exact C10_coercion_totality.2.2.2.2.2.2 2 (by decide) (by decide)

/-! ## C9 — reauth-signal classification in the poller -/

/-- C9: for every coordinator refresh, an `EzvizAuthTokenExpired` or
`EzvizAuthVerificationCode` error from the cloud call yields
`ConfigEntryAuthFailed`; `InvalidURL`, `HTTPError` or `PyEzvizError` yields
`UpdateFailed`; and every pyezvizapi error is classified into exactly one of
those two outcomes (no other outcome class exists for these errors). -/
theorem C9_reauth_classification (m : Bool) (k : ErrKind) (d0 : Option Dict) :
    (async_update_data m (.error (.ez .authTokenExpired d0)) =
      .configEntryAuthFailed) ∧
    (async_update_data m (.error (.ez .authVerificationCode d0)) =
      .configEntryAuthFailed) ∧
    (async_update_data m (.error (.ez .invalidURL d0)) = .updateFailed) ∧
    (async_update_data m (.error (.ez .httpError d0)) = .updateFailed) ∧
    (async_update_data m (.error (.ez .pyEzvizError d0)) = .updateFailed) ∧
    ((async_update_data m (.error (.ez k d0)) = .configEntryAuthFailed ∧
        (k = .authTokenExpired ∨ k = .authVerificationCode)) ∨
      (async_update_data m (.error (.ez k d0)) = .updateFailed ∧
        k ≠ .authTokenExpired ∧ k ≠ .authVerificationCode)) := by
  refine ⟨rfl, rfl, rfl, rfl, rfl, ?_⟩
  cases k <;> simp [async_update_data]

/-! ## C2 — token-rotation suppression in `async_setup_entry` -/

/-- C2 counterexample: with stored tokens `S1`/`R1` and a login response
`sessionId = "S2"` (rotated, non-empty) but `refreshSessionId = ""`
(empty), `async_setup_entry` does perform a persistence write (replacing
`session_id` only) — refuting the claim's spec-derived condition that a
change is signalled only when **both** tokens are non-empty. -/
theorem C2_counterexample :
    setup_entry_rotation
      [("session_id", .vStr "S1"), ("rf_session_id", .vStr "R1")]
      ⟨"S2", "", "apiieu.ezvizlife.com", "U1"⟩ =
      some [("session_id", .vStr "S2"), ("rf_session_id", .vStr "R1")] := by
  decide

/-- C2 amended: after the login call in `async_setup_entry`, a config-entry
data write is performed iff the returned `session_id` is non-empty and
differs from the stored one, or the returned `rf_session_id` is non-empty
and differs from the stored one (each field on its own — not "both
non-empty"); only the differing field(s) are replaced and all other entry
data is untouched; in particular an echo of both stored tokens triggers no
write. -/
theorem C2_token_rotation (stored : Dict) (t : Token) :
    (setup_entry_rotation stored t = none ↔
      ¬ ((t.session_id ≠ "" ∧
            some (Val.vStr t.session_id) ≠ dget stored "session_id") ∨
         (t.rf_session_id ≠ "" ∧
            some (Val.vStr t.rf_session_id) ≠ dget stored "rf_session_id"))) ∧
    (dget stored "session_id" = some (.vStr t.session_id) →
      dget stored "rf_session_id" = some (.vStr t.rf_session_id) →
      setup_entry_rotation stored t = none) ∧
    (∀ d, setup_entry_rotation stored t = some d →
      (dget d "session_id" =
        if t.session_id ≠ "" ∧
            some (Val.vStr t.session_id) ≠ dget stored "session_id"
        then some (.vStr t.session_id) else dget stored "session_id") ∧
      (dget d "rf_session_id" =
        if t.rf_session_id ≠ "" ∧
            some (Val.vStr t.rf_session_id) ≠ dget stored "rf_session_id"
        then some (.vStr t.rf_session_id) else dget stored "rf_session_id") ∧
      (∀ k, k ≠ "session_id" → k ≠ "rf_session_id" →
        dget d k = dget stored k)) := by
  have hrs : ("rf_session_id" : String) ≠ "session_id" := by decide
  by_cases c1 : t.session_id ≠ "" ∧
      some (Val.vStr t.session_id) ≠ dget stored "session_id" <;>
    by_cases c2 : t.rf_session_id ≠ "" ∧
        some (Val.vStr t.rf_session_id) ≠ dget stored "rf_session_id"
  · have he : setup_entry_rotation stored t =
        some (dset (dset stored "session_id" (.vStr t.session_id))
          "rf_session_id" (.vStr t.rf_session_id)) := by
      simp only [setup_entry_rotation, if_pos c1, if_pos c2]
      simp
    refine ⟨iff_of_false (by rw [he]; simp) (not_not_intro (Or.inl c1)), ?_, ?_⟩
    · intro h1 _
      exact absurd h1.symm c1.2
    · intro d hd
      rw [he] at hd
      simp only [Option.some.injEq] at hd
      subst hd
      refine ⟨?_, ?_, ?_⟩
      · rw [dget_dset_other _ _ _ _ (Ne.symm hrs), dget_dset_same, if_pos c1]
      · rw [dget_dset_same, if_pos c2]
      · intro k hk1 hk2
        rw [dget_dset_other _ _ _ _ hk2, dget_dset_other _ _ _ _ hk1]
  · have he : setup_entry_rotation stored t =
        some (dset stored "session_id" (.vStr t.session_id)) := by
      simp only [setup_entry_rotation, if_pos c1, if_neg c2]
      simp
    refine ⟨iff_of_false (by rw [he]; simp) (not_not_intro (Or.inl c1)), ?_, ?_⟩
    · intro h1 _
      exact absurd h1.symm c1.2
    · intro d hd
      rw [he] at hd
      simp only [Option.some.injEq] at hd
      subst hd
      refine ⟨by rw [dget_dset_same, if_pos c1],
        by rw [dget_dset_other _ _ _ _ hrs, if_neg c2], ?_⟩
      intro k hk1 _
      rw [dget_dset_other _ _ _ _ hk1]
  · have he : setup_entry_rotation stored t =
        some (dset stored "rf_session_id" (.vStr t.rf_session_id)) := by
      simp only [setup_entry_rotation, if_neg c1, if_pos c2]
      simp
    refine ⟨iff_of_false (by rw [he]; simp) (not_not_intro (Or.inr c2)), ?_, ?_⟩
    · intro _ h2
      exact absurd h2.symm c2.2
    · intro d hd
      rw [he] at hd
      simp only [Option.some.injEq] at hd
      subst hd
      refine ⟨by rw [dget_dset_other _ _ _ _ (Ne.symm hrs), if_neg c1],
        by rw [dget_dset_same, if_pos c2], ?_⟩
      intro k _ hk2
      rw [dget_dset_other _ _ _ _ hk2]
  · have he : setup_entry_rotation stored t = none := by
      simp only [setup_entry_rotation, if_neg c1, if_neg c2]
      simp
    refine ⟨iff_of_true he (fun h => h.elim c1 c2), fun _ _ => he, ?_⟩
    intro d hd
    rw [he] at hd
    exact Option.noConfusion hd

/-- C2 witness: the amended theorem applied at a stored record and a token
that echoes it exactly — no write happens. -/
theorem C2_token_rotation_witness :
    setup_entry_rotation
      [("session_id", .vStr "S1"), ("rf_session_id", .vStr "R1")]
      ⟨"S1", "R1", "apiieu.ezvizlife.com", "U1"⟩ = none := by
  exact (C2_token_rotation _ _).2.1 (by decide) (by decide)

/-! ## C6 — reauthentication frame rule -/

/-- C6: a successful reauth (with or without the MFA step) replaces only
`session_id` and `rf_session_id` in the stored entry data; `url` and
`user_id` (and every other key) are left exactly as they were — in
particular the host is never taken from the server's response (the new
data does not depend on the token's `api_url` at all). -/
theorem C6_reauth_frame (old : Dict) (t : Token) :
    dget (reauth_confirm_new_data old t) "url" = dget old "url" ∧
    dget (reauth_confirm_new_data old t) "user_id" = dget old "user_id" ∧
    dget (reauth_confirm_new_data old t) "session_id" =
      some (.vStr t.session_id) ∧
    dget (reauth_confirm_new_data old t) "rf_session_id" =
      some (.vStr t.rf_session_id) ∧
    (∀ k, k ≠ "session_id" → k ≠ "rf_session_id" →
      dget (reauth_confirm_new_data old t) k = dget old k) ∧
    reauth_mfa_new_data old t = reauth_confirm_new_data old t := by
  have hrs : ("rf_session_id" : String) ≠ "session_id" := by decide
  refine ⟨?_, ?_, ?_, ?_, ?_, rfl⟩
  · rw [reauth_confirm_new_data, dget_dset_other _ _ _ _ (by decide),
      dget_dset_other _ _ _ _ (by decide)]
  · rw [reauth_confirm_new_data, dget_dset_other _ _ _ _ (by decide),
      dget_dset_other _ _ _ _ (by decide)]
  · rw [reauth_confirm_new_data, dget_dset_other _ _ _ _ hrs.symm,
      dget_dset_same]
  · rw [reauth_confirm_new_data, dget_dset_same]
  · intro k hk1 hk2
    rw [reauth_confirm_new_data, dget_dset_other _ _ _ _ hk2,
      dget_dset_other _ _ _ _ hk1]

/-- C6 witness: the frame theorem applied to a concrete entry and a token
whose `api_url` points elsewhere — the stored url survives. -/
theorem C6_reauth_frame_witness :
    dget (reauth_confirm_new_data
      [("session_id", .vStr "S1"), ("rf_session_id", .vStr "R1"),
       ("url", .vStr "apiieu.ezvizlife.com"), ("user_id", .vStr "U1")]
      ⟨"S2", "R2", "evil.example.com", "U9"⟩) "url" =
      some (.vStr "apiieu.ezvizlife.com") ∧
    dget (reauth_confirm_new_data
      [("session_id", .vStr "S1"), ("rf_session_id", .vStr "R1"),
       ("url", .vStr "apiieu.ezvizlife.com"), ("user_id", .vStr "U1")]
      ⟨"S2", "R2", "evil.example.com", "U9"⟩) "user_id" =
      some (.vStr "U1") := by
  constructor
  · exact ((C6_reauth_frame _ _).2.2.2.2.1 "url" (by decide)
      (by decide)).trans (by decide)
  · exact ((C6_reauth_frame _ _).2.2.2.2.1 "user_id" (by decide)
      (by decide)).trans (by decide)

/-! ## C5 — API host resolution and normalization -/

/-- The first element surviving `List.dropWhile` fails the predicate. -/
theorem head_dropWhile_not (p : Char → Bool) :
    ∀ (l : List Char) (c : Char), (l.dropWhile p).head? = some c → p c = false := by
  intro l
  induction l with
  | nil => intro c h; simp at h
  | cons x xs ih =>
    intro c h
    rw [List.dropWhile_cons] at h
    split at h
    · exact ih c h
    · rename_i hx
      simp only [List.head?_cons, Option.some.injEq] at h
      subst h
      simpa using hx

/-- `dropWhile` leaves the last element unchanged unless it dropped
everything. -/
theorem getLast_dropWhile (p : Char → Bool) :
    ∀ l : List Char, l.dropWhile p = [] ∨ (l.dropWhile p).getLast? = l.getLast? := by
  intro l
  induction l with
  | nil => exact Or.inl rfl
  | cons x xs ih =>
    rw [List.dropWhile_cons]
    split
    · rcases ih with h | h
      · exact Or.inl h
      · rcases xs with _ | ⟨y, ys⟩
        · exact Or.inl (by simp)
        · exact Or.inr (h.trans List.getLast?_cons_cons.symm)
    · exact Or.inr rfl

/-- The output of `strip("/")` never begins or ends with a slash. -/
theorem stripSlashList_no_edge (l : List Char) :
    (stripSlashList l).head? ≠ some '/' ∧
    (stripSlashList l).getLast? ≠ some '/' := by
  constructor
  · rw [stripSlashList, List.head?_reverse]
    rcases getLast_dropWhile isSlash ((l.dropWhile isSlash).reverse) with h | h
    · rw [h]; simp
    · rw [h, List.getLast?_reverse]
      intro hc
      have hf := head_dropWhile_not isSlash l '/' hc
      simp [isSlash] at hf
  · rw [stripSlashList, List.getLast?_reverse]
    intro hc
    have hf := head_dropWhile_not isSlash ((l.dropWhile isSlash).reverse) '/' hc
    simp [isSlash] at hf

/-- The normalized host never begins or ends with a slash. -/
theorem normalize_api_host_no_edge_slash (s : String) :
    (normalize_api_host s).toList.head? ≠ some '/' ∧
    (normalize_api_host s).toList.getLast? ≠ some '/' := by
  unfold normalize_api_host
  exact stripSlashList_no_edge _

/-- C5 counterexample: on the input `"/ a"` the normalizer returns `" a"`,
which still begins with whitespace — `.strip().strip("/")` strips
whitespace before slashes, so whitespace guarded by a slash survives,
refuting "removes ... all leading/trailing whitespace and slashes". -/
theorem C5_counterexample :
    normalize_api_host "/ a" = " a" ∧
    (normalize_api_host "/ a").toList.head? = some ' ' := by
  decide

/-- C5 amended: `_resolve_api_host` returns the fixed region URL for the
symbolic regions (`eu`, `ru`) ignoring any custom URL, and for region
`custom` returns the normalized custom hostname, raising `invalid_url`
when the normalized result is empty; `_normalize_api_host` strips outer
whitespace, removes one leading `http://`/`https://` scheme, then strips
whitespace and then slashes from both ends — so the result never begins or
ends with a slash, but whitespace guarded by a slash can survive. -/
theorem C5_host_resolution (cu : Option String) (u s : String) :
    resolve_api_host REGION_EU cu = .ok EU_URL ∧
    resolve_api_host REGION_RU cu = .ok RUSSIA_URL ∧
    (normalize_api_host u ≠ "" →
      resolve_api_host REGION_CUSTOM (some u) = .ok (normalize_api_host u)) ∧
    (normalize_api_host u = "" →
      resolve_api_host REGION_CUSTOM (some u) = .error .invalidUrl) ∧
    (normalize_api_host s).toList.head? ≠ some '/' ∧
    (normalize_api_host s).toList.getLast? ≠ some '/' ∧
    normalize_api_host " https://sub.example.com// " = "sub.example.com" ∧
    normalize_api_host "http://h.example.org/" = "h.example.org" := by
  refine ⟨rfl, rfl, ?_, ?_, (normalize_api_host_no_edge_slash s).1,
    (normalize_api_host_no_edge_slash s).2, by decide, by decide⟩
  · intro h
    simp only [resolve_api_host, Option.getD_some, if_pos rfl]
    rw [if_neg h]
    simp
  · intro h
    simp only [resolve_api_host, Option.getD_some, if_pos rfl]
    rw [if_pos h]
    simp

/-- C5 witness: the amended theorem applied at concrete custom URLs. -/
theorem C5_host_resolution_witness :
    resolve_api_host REGION_CUSTOM (some "https://x.y/") =
      .ok (normalize_api_host "https://x.y/") ∧
    resolve_api_host REGION_CUSTOM (some " https:// ") = .error .invalidUrl := by
  constructor
  · exact (C5_host_resolution none "https://x.y/" "").2.2.1 (by decide)
  · exact (C5_host_resolution none " https:// " "").2.2.2.1 (by decide)

/-! ## C4 — duplicate-serial rejection during migration -/

/-- Keys already bound in a `CamMap` keep their record after appending. -/
theorem cmGet_append_left (m1 m2 : CamMap) (k : Val)
    (h : (cmGet m1 k).isSome) : cmGet (m1 ++ m2) k = cmGet m1 k := by
  induction m1 with
  | nil => simp [cmGet] at h
  | cons p rest ih =>
    obtain ⟨k0, v0⟩ := p
    by_cases h0 : k0 = k
    · simp [cmGet, h0]
    · simp only [cmGet, h0, if_false, List.cons_append] at *
      exact ih h

/-- A successful consolidation never rebinds a serial that was already in
the map. -/
theorem migrate_consolidate_preserves :
    ∀ (entries : List LegacyCamEntry) (base m : CamMap),
      migrate_consolidate base entries = .ok m →
      ∀ k, (cmGet base k).isSome → cmGet m k = cmGet base k := by
  intro entries
  induction entries with
  | nil =>
    intro base m h k hk
    simp only [migrate_consolidate, Except.ok.injEq] at h
    rw [← h]
  | cons e rest ih =>
    intro base m h k hk
    simp only [migrate_consolidate] at h
    cases hs : dget e.data ATTR_SERIAL with
    | none => rw [hs] at h; simp at h
    | some serial =>
      rw [hs] at h
      simp only [] at h
      by_cases hdup : (cmGet base serial).isSome
      · rw [if_pos hdup] at h; simp at h
      · rw [if_neg hdup] at h
        have hk2 : (cmGet (base ++ [(serial, legacyCamRecord e)]) k).isSome := by
          rw [cmGet_append_left _ _ _ hk]; exact hk
        have h2 := ih _ _ h k hk2
        rw [h2, cmGet_append_left _ _ _ hk]

/-- A legacy entry whose serial is already bound forces a
duplicate-serial error (given every entry carries a serial, so no earlier
`KeyError` preempts it). -/
theorem migrate_consolidate_duplicate :
    ∀ (entries : List LegacyCamEntry) (base : CamMap) (e : LegacyCamEntry),
      e ∈ entries →
      (∀ e2 ∈ entries, (dget e2.data ATTR_SERIAL).isSome) →
      ∀ serial, dget e.data ATTR_SERIAL = some serial →
      (cmGet base serial).isSome →
      ∃ s, migrate_consolidate base entries = .error (.duplicateSerial s) := by
  intro entries
  induction entries with
  | nil => intro base e he; cases he
  | cons f rest ih =>
    intro base e he hall serial hser hdup
    cases hsf : dget f.data ATTR_SERIAL with
    | none =>
      have := hall f (List.mem_cons_self f rest)
      rw [hsf] at this
      simp at this
    | some sf =>
      by_cases hd : (cmGet base sf).isSome
      · refine ⟨sf, ?_⟩
        simp only [migrate_consolidate]
        rw [hsf]
        simp only []
        rw [if_pos hd]
      · rcases List.mem_cons.mp he with rfl | hmem
        · have h2 := hser.symm.trans hsf
          simp only [Option.some.injEq] at h2
          subst h2
          exact absurd hdup hd
        · have hk2 : (cmGet (base ++ [(sf, legacyCamRecord f)]) serial).isSome := by
            rw [cmGet_append_left _ _ _ hdup]; exact hdup
          obtain ⟨s, hs⟩ := ih (base ++ [(sf, legacyCamRecord f)]) e hmem
            (fun e2 h2 => hall e2 (List.mem_cons_of_mem f h2)) serial hser hk2
          refine ⟨s, ?_⟩
          simp only [migrate_consolidate]
          rw [hsf]
          simp only []
          rw [if_neg hd]
          exact hs

/-- A legacy entry with no serial key forces an error (never a skip). -/
theorem migrate_consolidate_missing :
    ∀ (entries : List LegacyCamEntry) (base : CamMap) (e : LegacyCamEntry),
      e ∈ entries → dget e.data ATTR_SERIAL = none →
      ∃ err, migrate_consolidate base entries = .error err := by
  intro entries
  induction entries with
  | nil => intro base e he; cases he
  | cons f rest ih =>
    intro base e he hser
    cases hsf : dget f.data ATTR_SERIAL with
    | none =>
      refine ⟨.missingSerial, ?_⟩
      simp only [migrate_consolidate]
      rw [hsf]
    | some sf =>
      by_cases hd : (cmGet base sf).isSome
      · refine ⟨.duplicateSerial sf, ?_⟩
        simp only [migrate_consolidate]
        rw [hsf]
        simp only []
        rw [if_pos hd]
      · rcases List.mem_cons.mp he with rfl | hmem
        · rw [hser] at hsf; cases hsf
        · obtain ⟨err, herr⟩ := ih (base ++ [(sf, legacyCamRecord f)]) e hmem hser
          refine ⟨err, ?_⟩
          simp only [migrate_consolidate]
          rw [hsf]
          simp only []
          rw [if_neg hd]
          exact herr

/-- C4: during entry migration, a legacy camera entry whose serial is
already bound in the consolidated cameras map makes the consolidation
raise a duplicate-serial error (so in particular conflicting data is never
silently merged); a successful consolidation leaves every pre-existing
binding exactly as it was (never overwrites); and a missing serial key is
an error, not a skip. -/
theorem C4_duplicate_serial_rejection (base : CamMap)
    (entries : List LegacyCamEntry) :
    (∀ m, migrate_consolidate base entries = .ok m →
      ∀ k, (cmGet base k).isSome → cmGet m k = cmGet base k) ∧
    (∀ e ∈ entries, (∀ e2 ∈ entries, (dget e2.data ATTR_SERIAL).isSome) →
      ∀ serial, dget e.data ATTR_SERIAL = some serial →
      (cmGet base serial).isSome →
      ∃ s, migrate_consolidate base entries = .error (.duplicateSerial s)) ∧
    (∀ e ∈ entries, dget e.data ATTR_SERIAL = none →
      ∃ err, migrate_consolidate base entries = .error err) :=
  ⟨fun m h => migrate_consolidate_preserves entries base m h,
   fun e he hall serial hser hdup =>
     migrate_consolidate_duplicate entries base e he hall serial hser hdup,
   fun e he hser => migrate_consolidate_missing entries base e he hser⟩

/-- C4 witness: the theorem applied to a concrete duplicate (serial `C1`
already consolidated) and to a concrete entry lacking the serial key. -/
theorem C4_duplicate_serial_rejection_witness :
    (∃ s, migrate_consolidate [(.vStr "C1", [])]
      [⟨[("serial", .vStr "C1")], []⟩] = .error (.duplicateSerial s)) ∧
    (∃ err, migrate_consolidate []
      [⟨[("name", .vStr "cam")], []⟩] = .error err) := by
  constructor
  · exact (C4_duplicate_serial_rejection [(.vStr "C1", [])]
      [⟨[("serial", .vStr "C1")], []⟩]).2.1 ⟨[("serial", .vStr "C1")], []⟩
      (by decide) (by decide) (.vStr "C1") (by decide) (by decide)
  · exact (C4_duplicate_serial_rejection []
      [⟨[("name", .vStr "cam")], []⟩]).2.2 ⟨[("name", .vStr "cam")], []⟩
      (by decide) (by decide)

/-! ## C3 — MFA resend on device-credential fetch -/

/-- C3 counterexample: `_get_cam_enc_key` has no handler — when
`get_cam_key` raises "verification required" the error propagates with no
`get_2fa_check_code` resend request (the whole call trace is the single
`get_cam_key` call), refuting the claim for the encryption-key credential
kind. -/
theorem C3_counterexample :
    get_cam_enc_key
      { camKey := fun _ => .error (.ez .authVerificationCode none)
        camAuthCode := fun _ _ => .ok (.vStr "VC123")
        send2fa := .ok ()
        detectionSensibility := .ok ()
        rtspTest := fun _ _ _ => .ok () }
      [("serial", .vStr "C666"),
       ("cloud_account_username", .vStr "user@example.com")]
      none =
      (.error (.ez .authVerificationCode none), [.getCamKey]) ∧
    CallEvent.send2faCheckCode "DEVICE_AUTH_CODE" ∉ [CallEvent.getCamKey] := by
  exact ⟨rfl, by decide⟩

/-- C3 amended: the resend-before-re-raise behavior holds for the
verification-code fetch only: when `get_cam_auth_code` raises "verification
required", `_get_cam_verification_code` asks the cloud to (re)send a
one-time code tagged `DEVICE_AUTH_CODE` and then re-raises
`EzvizAuthVerificationCode`; the encryption-key fetch `_get_cam_enc_key`
never requests a resend. -/
theorem C3_mfa_resend (cloud : Cloud) (data : Dict) (code : Option Val)
    (d0 : Option Dict)
    (hser : (dget data ATTR_SERIAL).isSome)
    (husr : (dget data CLOUD_ACCOUNT_USERNAME).isSome)
    (hcall : cloud.camAuthCode code (if otruthy code then 0 else 3) =
      .error (.ez .authVerificationCode d0))
    (hsend : cloud.send2fa = .ok ()) :
    get_cam_verification_code cloud data code =
      (.error (.ez .authVerificationCode none),
       [.getCamAuthCode (if otruthy code then 0 else 3),
        .send2faCheckCode "DEVICE_AUTH_CODE"]) ∧
    ∀ b, CallEvent.send2faCheckCode b ∉ (get_cam_enc_key cloud data code).2 := by
  obtain ⟨v, hv⟩ := Option.isSome_iff_exists.mp hser
  obtain ⟨u, hu⟩ := Option.isSome_iff_exists.mp husr
  constructor
  · simp only [get_cam_verification_code, hv, hcall, hu, hsend]
  · intro b
    simp only [get_cam_enc_key, hv]
    simp

/-- C3 witness: the amended theorem at a concrete oracle whose
`get_cam_auth_code` demands verification. -/
theorem C3_mfa_resend_witness :
    get_cam_verification_code
      { camKey := fun _ => .ok (.vStr "K")
        camAuthCode := fun _ _ => .error (.ez .authVerificationCode none)
        send2fa := .ok ()
        detectionSensibility := .ok ()
        rtspTest := fun _ _ _ => .ok () }
      [("serial", .vStr "C666"),
       ("cloud_account_username", .vStr "user@example.com")]
      none =
      (.error (.ez .authVerificationCode none),
       [.getCamAuthCode 3, .send2faCheckCode "DEVICE_AUTH_CODE"]) := by
  exact (C3_mfa_resend _ _ none none (by decide) (by decide) rfl rfl).1

/-! ## Stage lemmas for `_test_rtsp_credentials` (shared by C1, C7, C8) -/

/-- Events of the RTSP DESCRIBE test are probe events only. -/
theorem test_camera_rtsp_creds_trace (cloud : Cloud) (d : Dict)
    (ev : CallEvent) (h : ev ∈ (test_camera_rtsp_creds cloud d).2) :
    ∃ i u s, ev = .rtspDescribe i u s := by
  rcases hf : dget d CONF_RTSP_USES_VERIFICATION_CODE with _ | flag
  · simp [test_camera_rtsp_creds, hf] at h
  · rcases hip : dget d CONF_IP_ADDRESS with _ | ip
    · simp [test_camera_rtsp_creds, hf, hip] at h
    · rcases hu : dget d CONF_USERNAME with _ | user
      · simp [test_camera_rtsp_creds, hf, hip, hu] at h
      · rcases hsec : dget d
            (if flag.truthy then CONF_PASSWORD else CONF_ENC_KEY) with
            _ | secret
        · simp [test_camera_rtsp_creds, hf, hip, hu, hsec] at h
        · rcases hr : cloud.rtspTest ip user secret with e | u <;>
            simp [test_camera_rtsp_creds, hf, hip, hu, hsec, hr] at h <;>
            exact ⟨ip, user, secret, h⟩

/-- Events of `_wake_camera` are the wake ping and probe events only. -/
theorem wake_camera_trace (cloud : Cloud) (d : Dict) (ev : CallEvent)
    (h : ev ∈ (wake_camera cloud d).2) :
    ev = .getDetectionSensibility ∨ ∃ i u s, ev = .rtspDescribe i u s := by
  unfold wake_camera at h
  split at h
  · simp at h
  · split at h
    · simp at h
      exact Or.inl h
    · simp at h
      rcases h with h | h
      · exact Or.inl h
      · exact Or.inr (test_camera_rtsp_creds_trace cloud d ev h)

/-- Events of the probe stage are the wake ping and probe events only. -/
theorem rtspStage3_trace (cloud : Cloud) (d : Dict) (ev : CallEvent)
    (h : ev ∈ (rtspStage3 cloud d).2) :
    ev = .getDetectionSensibility ∨ ∃ i u s, ev = .rtspDescribe i u s := by
  unfold rtspStage3 at h
  split at h
  · split at h
    · rename_i heq
      refine wake_camera_trace cloud d ev ?_
      rw [heq]
      exact h
    · rename_i heq
      refine wake_camera_trace cloud d ev ?_
      rw [heq]
      exact h
  · simp at h

/-- The probe stage returns the dict it was given, both on success and in
the error payload. -/
theorem rtspStage3_shape (cloud : Cloud) (d : Dict) :
    (rtspStage3 cloud d).1 = .ok d ∨
    ∃ e, (rtspStage3 cloud d).1 = .error (e, d) := by
  unfold rtspStage3
  split
  · rcases hw : wake_camera cloud d with ⟨r, tr⟩
    cases r with
    | error e => exact Or.inr ⟨e, rfl⟩
    | ok u => exact Or.inl rfl
  · exact Or.inl rfl

/-- Events of `_get_cam_verification_code` are its auth-code call and the
resend request only. -/
theorem get_cam_verification_code_trace (cloud : Cloud) (d : Dict)
    (code : Option Val) (ev : CallEvent)
    (h : ev ∈ (get_cam_verification_code cloud d code).2) :
    (∃ st, ev = .getCamAuthCode st) ∨
    ev = .send2faCheckCode "DEVICE_AUTH_CODE" := by
  rcases hs : dget d ATTR_SERIAL with _ | sv
  · simp [get_cam_verification_code, hs] at h
  · rcases hc : cloud.camAuthCode code (if otruthy code then 0 else 3)
      with e | v
    · rcases e with ⟨k0, d0⟩ | k0
      · cases k0
        case authVerificationCode =>
          rcases hu : dget d CLOUD_ACCOUNT_USERNAME with _ | uv
          · simp [get_cam_verification_code, hs, hc, hu] at h
            exact Or.inl ⟨_, h⟩
          · rcases h2 : cloud.send2fa with e2 | u2
            · simp [get_cam_verification_code, hs, hc, hu, h2] at h
              rcases h with h | h
              · exact Or.inl ⟨_, h⟩
              · exact Or.inr h
            · simp [get_cam_verification_code, hs, hc, hu, h2] at h
              rcases h with h | h
              · exact Or.inl ⟨_, h⟩
              · exact Or.inr h
        all_goals simp [get_cam_verification_code, hs, hc] at h
        all_goals exact Or.inl ⟨_, h⟩
      · simp [get_cam_verification_code, hs, hc] at h
        exact Or.inl ⟨_, h⟩
    · simp [get_cam_verification_code, hs, hc] at h
      exact Or.inl ⟨_, h⟩

/-- Events of `_get_cam_enc_key` are its single key call only. -/
theorem get_cam_enc_key_trace (cloud : Cloud) (d : Dict)
    (code : Option Val) (ev : CallEvent)
    (h : ev ∈ (get_cam_enc_key cloud d code).2) : ev = .getCamKey := by
  unfold get_cam_enc_key at h
  split at h
  · simp at h
  · simp at h
    exact h

/-- The fetch stage for the verification code mutates only the password
field, and only when it held the fetch sentinel. -/
theorem rtspStage2_ok (cloud : Cloud) (d d2 : Dict)
    (h : (rtspStage2 cloud d).1 = .ok d2) :
    d2 = d ∨ (dget d CONF_PASSWORD = some (.vStr DEFAULT_FETCH_MY_KEY) ∧
      ∃ v, d2 = dset d CONF_PASSWORD v) := by
  unfold rtspStage2 at h
  split at h
  · rename_i hpw
    rcases hg : get_cam_verification_code cloud d
        (dget d CONF_CAM_VERIFICATION_2FA_CODE) with ⟨r, tr⟩
    rw [hg] at h
    cases r with
    | error e => exact Except.noConfusion h
    | ok v =>
      have h3 : (rtspStage3 cloud (dset d CONF_PASSWORD v)).1 = .ok d2 := h
      rcases rtspStage3_shape cloud (dset d CONF_PASSWORD v) with hs | ⟨e, hs⟩
      · rw [h3] at hs
        exact Or.inr ⟨hpw, v, Except.ok.inj hs⟩
      · rw [hs] at h3
        exact Except.noConfusion h3
  · rcases rtspStage3_shape cloud d with hs | ⟨e, hs⟩
    · rw [h] at hs
      exact Or.inl (Except.ok.inj hs)
    · rw [hs] at h
      exact Except.noConfusion h

/-- The encryption-key stage mutates only the `enc_key` field (and only
when it held the fetch sentinel) before handing over to the
verification-code stage. -/
theorem rtspStage1_ok (cloud : Cloud) (d x : Dict)
    (h : (rtspStage1 cloud d).1 = .ok x) :
    ∃ dm, (dm = d ∨ (dget d CONF_ENC_KEY = some (.vStr DEFAULT_FETCH_MY_KEY) ∧
        ∃ v, dm = dset d CONF_ENC_KEY v)) ∧
      (x = dm ∨ (dget dm CONF_PASSWORD = some (.vStr DEFAULT_FETCH_MY_KEY) ∧
        ∃ w, x = dset dm CONF_PASSWORD w)) := by
  unfold rtspStage1 at h
  split at h
  · rename_i henc
    rcases hg : get_cam_enc_key cloud d (dget d CONF_CAM_ENC_2FA_CODE)
      with ⟨r, tr⟩
    rw [hg] at h
    cases r with
    | error e => exact Except.noConfusion h
    | ok v =>
      have hx : (rtspStage2 cloud (dset d CONF_ENC_KEY v)).1 = .ok x := h
      exact ⟨dset d CONF_ENC_KEY v, Or.inr ⟨henc, v, rfl⟩,
        rtspStage2_ok cloud _ x hx⟩
  · rename_i henc
    exact ⟨d, Or.inl rfl, rtspStage2_ok cloud d x h⟩

/-- The trace of `_test_rtsp_credentials` is the trace of its staged `try`
body. -/
theorem test_rtsp_credentials_trace_eq (cloud : Cloud) (data : Dict) :
    (test_rtsp_credentials cloud data).2 = (rtspStage1 cloud data).2 := by
  unfold test_rtsp_credentials
  rcases h1 : rtspStage1 cloud data with ⟨r, tr⟩
  cases r with
  | error p =>
    rcases p with ⟨e, dc⟩
    rfl
  | ok dd => rfl

/-- A success of `_test_rtsp_credentials` is a success of the staged body
followed by the ephemeral-value removal. -/
theorem test_rtsp_credentials_ok (cloud : Cloud) (data d : Dict)
    (h : (test_rtsp_credentials cloud data).1 = .ok d) :
    ∃ x, (rtspStage1 cloud data).1 = .ok x ∧ finalizeResolved x = .ok d := by
  unfold test_rtsp_credentials at h
  rcases h1 : rtspStage1 cloud data with ⟨r, tr⟩
  rw [h1] at h
  cases r with
  | error p =>
    rcases p with ⟨e, dc⟩
    exact Except.noConfusion h
  | ok x => exact ⟨x, rfl, h⟩

/-- What the success path of `_test_rtsp_credentials` returns: the resolved
dict with the five ephemeral keys removed. -/
theorem finalizeResolved_ok (x d : Dict) (h : finalizeResolved x = .ok d) :
    d = dpop (dpop (dpop (dpop (dpop x CONF_CAM_VERIFICATION_2FA_CODE)
      CONF_CAM_ENC_2FA_CODE) EPHEMERAL_TEST_RTSP) CONF_IP_ADDRESS)
      CLOUD_ACCOUNT_USERNAME := by
  simp only [finalizeResolved] at h
  split at h
  · exact (Except.ok.inj h).symm
  · exact Except.noConfusion h

/-- Keys other than the five ephemeral ones survive the success-path
removal unchanged. -/
theorem dget_finalize_frame (x d : Dict) (h : finalizeResolved x = .ok d)
    (k : String) (h1 : k ≠ CONF_CAM_VERIFICATION_2FA_CODE)
    (h2 : k ≠ CONF_CAM_ENC_2FA_CODE) (h3 : k ≠ EPHEMERAL_TEST_RTSP)
    (h4 : k ≠ CONF_IP_ADDRESS) (h5 : k ≠ CLOUD_ACCOUNT_USERNAME) :
    dget d k = dget x k := by
  rw [finalizeResolved_ok x d h, dget_dpop_other _ _ _ h5,
    dget_dpop_other _ _ _ h4, dget_dpop_other _ _ _ h3,
    dget_dpop_other _ _ _ h2, dget_dpop_other _ _ _ h1]

/-- Classification of the events of the verification-code stage. -/
theorem rtspStage2_trace (cloud : Cloud) (d : Dict) (ev : CallEvent)
    (h : ev ∈ (rtspStage2 cloud d).2) :
    (ev = .fetchVerificationCode ∧
      dget d CONF_PASSWORD = some (.vStr DEFAULT_FETCH_MY_KEY)) ∨
    (∃ st, ev = .getCamAuthCode st) ∨
    ev = .send2faCheckCode "DEVICE_AUTH_CODE" ∨
    ev = .getDetectionSensibility ∨ ∃ i u s, ev = .rtspDescribe i u s := by
  unfold rtspStage2 at h
  split at h
  · rename_i hpw
    rcases hg : get_cam_verification_code cloud d
        (dget d CONF_CAM_VERIFICATION_2FA_CODE) with ⟨r, tr⟩
    rw [hg] at h
    cases r with
    | error e =>
      have h2 : ev ∈ CallEvent.fetchVerificationCode :: tr := h
      rcases List.mem_cons.mp h2 with h3 | h3
      · exact Or.inl ⟨h3, hpw⟩
      · have h4 := get_cam_verification_code_trace cloud d
          (dget d CONF_CAM_VERIFICATION_2FA_CODE) ev (by rw [hg]; exact h3)
        tauto
    | ok v =>
      have h2 : ev ∈ CallEvent.fetchVerificationCode :: tr ++
          (rtspStage3 cloud (dset d CONF_PASSWORD v)).2 := h
      rcases List.mem_cons.mp h2 with h3 | h3
      · exact Or.inl ⟨h3, hpw⟩
      · rcases List.mem_append.mp h3 with h4 | h4
        · have h5 := get_cam_verification_code_trace cloud d
            (dget d CONF_CAM_VERIFICATION_2FA_CODE) ev (by rw [hg]; exact h4)
          tauto
        · have h5 := rtspStage3_trace cloud (dset d CONF_PASSWORD v) ev h4
          tauto
  · have h5 := rtspStage3_trace cloud d ev h
    tauto

/-- The verification-code fetch is dispatched iff the password field holds
the fetch sentinel when the stage runs. -/
theorem rtspStage2_fetchVer (cloud : Cloud) (d : Dict) :
    CallEvent.fetchVerificationCode ∈ (rtspStage2 cloud d).2 ↔
    dget d CONF_PASSWORD = some (.vStr DEFAULT_FETCH_MY_KEY) := by
  constructor
  · intro h
    rcases rtspStage2_trace cloud d _ h with ⟨_, hp⟩ | ⟨st, he⟩ | he | he |
      ⟨i, u, sc, he⟩
    · exact hp
    · cases he
    · cases he
    · cases he
    · cases he
  · intro hpw
    unfold rtspStage2
    rw [if_pos hpw]
    rcases hg : get_cam_verification_code cloud d
        (dget d CONF_CAM_VERIFICATION_2FA_CODE) with ⟨r, tr⟩
    cases r with
    | error e => exact List.mem_cons_self _ _
    | ok v =>
      show CallEvent.fetchVerificationCode ∈
        CallEvent.fetchVerificationCode :: tr ++
          (rtspStage3 cloud (dset d CONF_PASSWORD v)).2
      exact List.mem_cons_self _ _

/-- When the password field is already concrete, the whole
verification-code stage performs probe events only. -/
theorem rtspStage2_concrete_trace (cloud : Cloud) (d : Dict)
    (hpw : dget d CONF_PASSWORD ≠ some (.vStr DEFAULT_FETCH_MY_KEY))
    (ev : CallEvent) (h : ev ∈ (rtspStage2 cloud d).2) :
    ev = .getDetectionSensibility ∨ ∃ i u s, ev = .rtspDescribe i u s := by
  unfold rtspStage2 at h
  rw [if_neg hpw] at h
  exact rtspStage3_trace cloud d ev h

/-- The encryption-key fetch is dispatched iff the `enc_key` field holds
the fetch sentinel. -/
theorem rtspStage1_fetchEnc (cloud : Cloud) (d : Dict) :
    CallEvent.fetchEncKey ∈ (rtspStage1 cloud d).2 ↔
    dget d CONF_ENC_KEY = some (.vStr DEFAULT_FETCH_MY_KEY) := by
  unfold rtspStage1
  by_cases henc : dget d CONF_ENC_KEY = some (.vStr DEFAULT_FETCH_MY_KEY)
  · rw [if_pos henc]
    refine iff_of_true ?_ henc
    rcases hg : get_cam_enc_key cloud d (dget d CONF_CAM_ENC_2FA_CODE)
      with ⟨r, tr⟩
    cases r with
    | error e => exact List.mem_cons_self _ _
    | ok v =>
      show CallEvent.fetchEncKey ∈ CallEvent.fetchEncKey :: tr ++
        (rtspStage2 cloud (dset d CONF_ENC_KEY v)).2
      exact List.mem_cons_self _ _
  · rw [if_neg henc]
    refine iff_of_false ?_ henc
    intro h
    rcases rtspStage2_trace cloud d _ h with ⟨he, _⟩ | ⟨st, he⟩ | he | he |
      ⟨i, u, sc, he⟩ <;> cases he

/-- The verification-code fetch is dispatched iff the password field holds
the fetch sentinel and the encryption-key step did not raise. -/
theorem rtspStage1_fetchVer (cloud : Cloud) (d : Dict) :
    CallEvent.fetchVerificationCode ∈ (rtspStage1 cloud d).2 ↔
    (dget d CONF_PASSWORD = some (.vStr DEFAULT_FETCH_MY_KEY) ∧
      ¬ encStepRaised cloud d) := by
  by_cases henc : dget d CONF_ENC_KEY = some (.vStr DEFAULT_FETCH_MY_KEY)
  · unfold rtspStage1
    rw [if_pos henc]
    rcases hg : get_cam_enc_key cloud d (dget d CONF_CAM_ENC_2FA_CODE)
      with ⟨r, tr⟩
    cases r with
    | error e =>
      refine iff_of_false ?_ ?_
      · intro h
        have h2 : CallEvent.fetchVerificationCode ∈
            CallEvent.fetchEncKey :: tr := h
        rcases List.mem_cons.mp h2 with h3 | h3
        · cases h3
        · have h4 := get_cam_enc_key_trace cloud d _ _ (by rw [hg]; exact h3)
          cases h4
      · rintro ⟨_, hnr⟩
        refine hnr ⟨henc, e, ?_⟩
        rw [hg]
    | ok v =>
      have hpw2 : dget (dset d CONF_ENC_KEY v) CONF_PASSWORD =
          dget d CONF_PASSWORD := dget_dset_other _ _ _ _ (by decide)
      constructor
      · intro h
        have h2 : CallEvent.fetchVerificationCode ∈
            CallEvent.fetchEncKey :: tr ++
              (rtspStage2 cloud (dset d CONF_ENC_KEY v)).2 := h
        rcases List.mem_cons.mp h2 with h3 | h3
        · cases h3
        · rcases List.mem_append.mp h3 with h4 | h4
          · have h5 := get_cam_enc_key_trace cloud d _ _ (by rw [hg]; exact h4)
            cases h5
          · have h5 := (rtspStage2_fetchVer cloud (dset d CONF_ENC_KEY v)).mp h4
            rw [hpw2] at h5
            refine ⟨h5, ?_⟩
            rintro ⟨_, e, herr⟩
            rw [hg] at herr
            exact Except.noConfusion herr
      · rintro ⟨hpw, _⟩
        have h5 := (rtspStage2_fetchVer cloud (dset d CONF_ENC_KEY v)).mpr
          (by rw [hpw2]; exact hpw)
        show CallEvent.fetchVerificationCode ∈ CallEvent.fetchEncKey :: tr ++
          (rtspStage2 cloud (dset d CONF_ENC_KEY v)).2
        exact List.mem_cons_of_mem _ (List.mem_append_right _ h5)
  · unfold rtspStage1
    rw [if_neg henc, rtspStage2_fetchVer]
    constructor
    · intro hpw
      exact ⟨hpw, fun hr => henc hr.1⟩
    · rintro ⟨hpw, _⟩
      exact hpw

/-- When the `enc_key` field is concrete, the first stage is exactly the
verification-code stage. -/
theorem rtspStage1_concrete_enc (cloud : Cloud) (d : Dict)
    (henc : dget d CONF_ENC_KEY ≠ some (.vStr DEFAULT_FETCH_MY_KEY)) :
    rtspStage1 cloud d = rtspStage2 cloud d := by
  unfold rtspStage1
  rw [if_neg henc]

/-- When the password field is concrete, the staged body never emits a
verification-code fetch nor an auth-code network call. -/
theorem rtspStage1_concrete_pw_trace (cloud : Cloud) (d : Dict)
    (hpw : dget d CONF_PASSWORD ≠ some (.vStr DEFAULT_FETCH_MY_KEY))
    (ev : CallEvent) (h : ev ∈ (rtspStage1 cloud d).2) :
    ev = .fetchEncKey ∨ ev = .getCamKey ∨
    ev = .getDetectionSensibility ∨ ∃ i u s, ev = .rtspDescribe i u s := by
  unfold rtspStage1 at h
  split at h
  · rcases hg : get_cam_enc_key cloud d (dget d CONF_CAM_ENC_2FA_CODE)
      with ⟨r, tr⟩
    rw [hg] at h
    cases r with
    | error e =>
      have h2 : ev ∈ CallEvent.fetchEncKey :: tr := h
      rcases List.mem_cons.mp h2 with h3 | h3
      · exact Or.inl h3
      · exact Or.inr (Or.inl
          (get_cam_enc_key_trace cloud d _ _ (by rw [hg]; exact h3)))
    | ok v =>
      have h2 : ev ∈ CallEvent.fetchEncKey :: tr ++
          (rtspStage2 cloud (dset d CONF_ENC_KEY v)).2 := h
      rcases List.mem_cons.mp h2 with h3 | h3
      · exact Or.inl h3
      · rcases List.mem_append.mp h3 with h4 | h4
        · exact Or.inr (Or.inl
            (get_cam_enc_key_trace cloud d _ _ (by rw [hg]; exact h4)))
        · have hpw2 : dget (dset d CONF_ENC_KEY v) CONF_PASSWORD ≠
              some (.vStr DEFAULT_FETCH_MY_KEY) := by
            rw [dget_dset_other _ _ _ _ (by decide)]
            exact hpw
          have h5 := rtspStage2_concrete_trace cloud _ hpw2 ev h4
          tauto
  · have h5 := rtspStage2_concrete_trace cloud d hpw ev h
    tauto

/-! ## C1 — credential-resolution idempotence -/

/-- C1 counterexample: on a record where **both** fields hold the sentinel,
an encryption-key fetch that raises "verification required" aborts the
`try` body, so the verification-code fetch is *not* invoked even though the
password field equals the sentinel — refuting the unconditional
"invoked iff the password equals the sentinel" biconditional. -/
theorem C1_counterexample :
    dget
      [("username", .vStr "admin"), ("password", .vStr "fetch_my_key"),
       ("enc_key", .vStr "fetch_my_key"),
       ("rtsp_uses_verification_code", .vBool false),
       ("ephemeral_test_rtsp", .vBool false), ("ip_address", .vStr "1.2.3.4"),
       ("cloud_account_username", .vStr "user@example.com"),
       ("serial", .vStr "C666")] CONF_PASSWORD =
      some (.vStr DEFAULT_FETCH_MY_KEY) ∧
    test_rtsp_credentials
      { camKey := fun _ => .error (.ez .authVerificationCode none)
        camAuthCode := fun _ _ => .ok (.vStr "VC123")
        send2fa := .ok ()
        detectionSensibility := .ok ()
        rtspTest := fun _ _ _ => .ok () }
      [("username", .vStr "admin"), ("password", .vStr "fetch_my_key"),
       ("enc_key", .vStr "fetch_my_key"),
       ("rtsp_uses_verification_code", .vBool false),
       ("ephemeral_test_rtsp", .vBool false), ("ip_address", .vStr "1.2.3.4"),
       ("cloud_account_username", .vStr "user@example.com"),
       ("serial", .vStr "C666")] =
      (.error (.ez .authVerificationCode none),
       [.fetchEncKey, .getCamKey]) ∧
    CallEvent.fetchVerificationCode ∉
      [CallEvent.fetchEncKey, CallEvent.getCamKey] := by
  refine ⟨by decide, rfl, by decide⟩

/-- C1 amended: in `_test_rtsp_credentials`, the encryption-key fetch is
dispatched iff `enc_key` equals the sentinel `"fetch_my_key"`; the
verification-code fetch is dispatched iff the password equals the sentinel
**and** the encryption-key step did not raise; and a field holding a
concrete (non-sentinel) value triggers no network fetch for it and is
returned unchanged on success. -/
theorem C1_credential_idempotence (cloud : Cloud) (data : Dict) :
    (CallEvent.fetchEncKey ∈ (test_rtsp_credentials cloud data).2 ↔
      dget data CONF_ENC_KEY = some (.vStr DEFAULT_FETCH_MY_KEY)) ∧
    (CallEvent.fetchVerificationCode ∈ (test_rtsp_credentials cloud data).2 ↔
      (dget data CONF_PASSWORD = some (.vStr DEFAULT_FETCH_MY_KEY) ∧
        ¬ encStepRaised cloud data)) ∧
    (∀ v, dget data CONF_ENC_KEY = some v →
      v ≠ .vStr DEFAULT_FETCH_MY_KEY →
      CallEvent.fetchEncKey ∉ (test_rtsp_credentials cloud data).2 ∧
      CallEvent.getCamKey ∉ (test_rtsp_credentials cloud data).2 ∧
      ∀ d2, (test_rtsp_credentials cloud data).1 = .ok d2 →
        dget d2 CONF_ENC_KEY = some v) ∧
    (∀ v, dget data CONF_PASSWORD = some v →
      v ≠ .vStr DEFAULT_FETCH_MY_KEY →
      CallEvent.fetchVerificationCode ∉ (test_rtsp_credentials cloud data).2 ∧
      (∀ st, CallEvent.getCamAuthCode st ∉
        (test_rtsp_credentials cloud data).2) ∧
      ∀ d2, (test_rtsp_credentials cloud data).1 = .ok d2 →
        dget d2 CONF_PASSWORD = some v) := by
  rw [test_rtsp_credentials_trace_eq]
  refine ⟨rtspStage1_fetchEnc cloud data, rtspStage1_fetchVer cloud data,
    ?_, ?_⟩
  · intro v hv hne
    have hns : dget data CONF_ENC_KEY ≠ some (.vStr DEFAULT_FETCH_MY_KEY) := by
      rw [hv]
      intro hc
      exact hne (Option.some.inj hc)
    refine ⟨?_, ?_, ?_⟩
    · rw [rtspStage1_fetchEnc]
      exact hns
    · intro h
      rw [rtspStage1_concrete_enc cloud data hns] at h
      rcases rtspStage2_trace cloud data _ h with ⟨he, _⟩ | ⟨st, he⟩ | he |
        he | ⟨i, u, sc, he⟩ <;> cases he
    · intro d2 hok
      obtain ⟨x, hx1, hx2⟩ := test_rtsp_credentials_ok cloud data d2 hok
      obtain ⟨dm, hdm, hxm⟩ := rtspStage1_ok cloud data x hx1
      have hdm2 : dm = data := by
        rcases hdm with rfl | ⟨hs, _⟩
        · rfl
        · exact absurd hs hns
      subst hdm2
      have hxenc : dget x CONF_ENC_KEY = some v := by
        rcases hxm with rfl | ⟨_, w, rfl⟩
        · exact hv
        · rw [dget_dset_other _ _ _ _ (by decide)]
          exact hv
      rw [dget_finalize_frame x d2 hx2 CONF_ENC_KEY (by decide) (by decide)
        (by decide) (by decide) (by decide)]
      exact hxenc
  · intro v hv hne
    have hns : dget data CONF_PASSWORD ≠ some (.vStr DEFAULT_FETCH_MY_KEY) := by
      rw [hv]
      intro hc
      exact hne (Option.some.inj hc)
    refine ⟨?_, ?_, ?_⟩
    · rw [rtspStage1_fetchVer]
      rintro ⟨hp, _⟩
      exact hns hp
    · intro st h
      rcases rtspStage1_concrete_pw_trace cloud data hns _ h with he | he |
        he | ⟨i, u, sc, he⟩ <;> cases he
    · intro d2 hok
      obtain ⟨x, hx1, hx2⟩ := test_rtsp_credentials_ok cloud data d2 hok
      obtain ⟨dm, hdm, hxm⟩ := rtspStage1_ok cloud data x hx1
      have hdmp : dget dm CONF_PASSWORD = some v := by
        rcases hdm with rfl | ⟨_, w, rfl⟩
        · exact hv
        · rw [dget_dset_other _ _ _ _ (by decide)]
          exact hv
      have hxp : dget x CONF_PASSWORD = some v := by
        rcases hxm with rfl | ⟨hs, _⟩
        · exact hdmp
        · rw [hdmp] at hs
          exact absurd (Option.some.inj hs) hne
      rw [dget_finalize_frame x d2 hx2 CONF_PASSWORD (by decide) (by decide)
        (by decide) (by decide) (by decide)]
      exact hxp

/-- C1 witness: the amended theorem applied to a record whose two
credential fields are concrete — neither fetch is dispatched. -/
theorem C1_credential_idempotence_witness :
    CallEvent.fetchEncKey ∉
      (test_rtsp_credentials
        { camKey := fun _ => .ok (.vStr "NEW")
          camAuthCode := fun _ _ => .ok (.vStr "VC")
          send2fa := .ok ()
          detectionSensibility := .ok ()
          rtspTest := fun _ _ _ => .ok () }
        [("enc_key", .vStr "KEY9"), ("password", .vStr "P1"),
         ("cloud_account_username", .vStr "user@example.com")]).2 ∧
    CallEvent.fetchVerificationCode ∉
      (test_rtsp_credentials
        { camKey := fun _ => .ok (.vStr "NEW")
          camAuthCode := fun _ _ => .ok (.vStr "VC")
          send2fa := .ok ()
          detectionSensibility := .ok ()
          rtspTest := fun _ _ _ => .ok () }
        [("enc_key", .vStr "KEY9"), ("password", .vStr "P1"),
         ("cloud_account_username", .vStr "user@example.com")]).2 := by
  constructor
  · exact ((C1_credential_idempotence _ _).2.2.1 (.vStr "KEY9") (by decide)
      (by decide)).1
  · exact ((C1_credential_idempotence _ _).2.2.2 (.vStr "P1") (by decide)
      (by decide)).1

/-! ## C7 — partial-data preservation on failure -/

/-- On any non-MFA pyezvizapi error from the auth-code call,
`_get_cam_verification_code` propagates it after the single network call. -/
theorem get_cam_verification_code_err (cloud : Cloud) (d : Dict)
    (code : Option Val) (sv : Val) (hs : dget d ATTR_SERIAL = some sv)
    (k : ErrKind) (d0 : Option Dict) (hk : k ≠ .authVerificationCode)
    (hc : cloud.camAuthCode code (if otruthy code then 0 else 3) =
      .error (.ez k d0)) :
    get_cam_verification_code cloud d code =
      (.error (.ez k d0), [.getCamAuthCode (if otruthy code then 0 else 3)]) := by
  simp only [get_cam_verification_code]
  rw [hs, hc]
  cases k
  case authVerificationCode => exact absurd rfl hk
  all_goals rfl

/-- C7: when the encryption key was already fetched (the sentinel replaced
by the fetched value `K`) and the subsequent verification-code fetch fails
with a device / auth-test / API error, `_test_rtsp_credentials` re-raises
an exception whose `.data` is the dict as mutated so far — carrying `K` —
the camera-edit prefill built from that `.data` shows `K`, and any
subsequent attempt on a record holding the concrete `K` dispatches no
encryption-key fetch. -/
theorem C7_partial_data_preserved (cloud : Cloud) (data : Dict) (K : String)
    (k : ErrKind) (d0 : Option Dict) (per_cam ui : Dict) (td : Bool)
    (hser : (dget data ATTR_SERIAL).isSome)
    (henc : dget data CONF_ENC_KEY = some (.vStr DEFAULT_FETCH_MY_KEY))
    (hkey : cloud.camKey (dget data CONF_CAM_ENC_2FA_CODE) = .ok (.vStr K))
    (hK : K ≠ DEFAULT_FETCH_MY_KEY)
    (hpw : dget data CONF_PASSWORD = some (.vStr DEFAULT_FETCH_MY_KEY))
    (hauth : cloud.camAuthCode (dget data CONF_CAM_VERIFICATION_2FA_CODE)
      (if otruthy (dget data CONF_CAM_VERIFICATION_2FA_CODE) then 0 else 3) =
      .error (.ez k d0))
    (hk : k = .deviceException ∨ k = .authTestResultFailed ∨
      k = .pyEzvizError ∨ k = .invalidURL ∨ k = .httpError) :
    ∃ k2, (test_rtsp_credentials cloud data).1 =
        .error (.ez k2 (some (dset data CONF_ENC_KEY (.vStr K)))) ∧
      dget (dset data CONF_ENC_KEY (.vStr K)) CONF_ENC_KEY =
        some (.vStr K) ∧
      dget (make_prefill per_cam td
          (some (dset data CONF_ENC_KEY (.vStr K))) (some ui))
        CONF_ENC_KEY = some (.vStr K) ∧
      (∀ cloud2 data2, dget data2 CONF_ENC_KEY = some (.vStr K) →
        CallEvent.fetchEncKey ∉ (test_rtsp_credentials cloud2 data2).2) := by
  obtain ⟨sv, hsv⟩ := Option.isSome_iff_exists.mp hser
  have hkne : k ≠ .authVerificationCode := by
    rcases hk with rfl | rfl | rfl | rfl | rfl <;> decide
  have h1 : dget (dset data CONF_ENC_KEY (.vStr K)) ATTR_SERIAL = some sv := by
    rw [dget_dset_other _ _ _ _ (by decide)]
    exact hsv
  have h2 : dget (dset data CONF_ENC_KEY (.vStr K)) CONF_PASSWORD =
      some (.vStr DEFAULT_FETCH_MY_KEY) := by
    rw [dget_dset_other _ _ _ _ (by decide)]
    exact hpw
  have h3 : dget (dset data CONF_ENC_KEY (.vStr K))
      CONF_CAM_VERIFICATION_2FA_CODE =
      dget data CONF_CAM_VERIFICATION_2FA_CODE :=
    dget_dset_other _ _ _ _ (by decide)
  have hgek : get_cam_enc_key cloud data (dget data CONF_CAM_ENC_2FA_CODE) =
      (.ok (.vStr K), [.getCamKey]) := by
    unfold get_cam_enc_key
    rw [hsv, hkey]
  have hauth2 : cloud.camAuthCode
      (dget (dset data CONF_ENC_KEY (.vStr K)) CONF_CAM_VERIFICATION_2FA_CODE)
      (if otruthy (dget (dset data CONF_ENC_KEY (.vStr K))
        CONF_CAM_VERIFICATION_2FA_CODE) then 0 else 3) = .error (.ez k d0) := by
    rw [h3]
    exact hauth
  have hgvc := get_cam_verification_code_err cloud
    (dset data CONF_ENC_KEY (.vStr K))
    (dget (dset data CONF_ENC_KEY (.vStr K)) CONF_CAM_VERIFICATION_2FA_CODE)
    sv h1 k d0 hkne hauth2
  have hstage2 : rtspStage2 cloud (dset data CONF_ENC_KEY (.vStr K)) =
      (.error (.ez k d0, dset data CONF_ENC_KEY (.vStr K)),
       [.fetchVerificationCode,
        .getCamAuthCode (if otruthy (dget (dset data CONF_ENC_KEY (.vStr K))
          CONF_CAM_VERIFICATION_2FA_CODE) then 0 else 3)]) := by
    unfold rtspStage2
    rw [if_pos h2, hgvc]
  have hstage1 : rtspStage1 cloud data =
      (.error (.ez k d0, dset data CONF_ENC_KEY (.vStr K)),
       [.fetchEncKey, .getCamKey, .fetchVerificationCode,
        .getCamAuthCode (if otruthy (dget (dset data CONF_ENC_KEY (.vStr K))
          CONF_CAM_VERIFICATION_2FA_CODE) then 0 else 3)]) := by
    unfold rtspStage1
    rw [if_pos henc, hgek]
    show ((rtspStage2 cloud (dset data CONF_ENC_KEY (Val.vStr K))).1,
      CallEvent.fetchEncKey :: [CallEvent.getCamKey] ++
        (rtspStage2 cloud (dset data CONF_ENC_KEY (Val.vStr K))).2) = _
    rw [hstage2]
    rfl
  have hfin : (test_rtsp_credentials cloud data).1 =
      .error (wrapTestError (.ez k d0) (dset data CONF_ENC_KEY (.vStr K))) := by
    unfold test_rtsp_credentials
    rw [hstage1]
  have henc1 : dget (dset data CONF_ENC_KEY (.vStr K)) CONF_ENC_KEY =
      some (.vStr K) := dget_dset_same _ _ _
  have hpre : dget (make_prefill per_cam td
      (some (dset data CONF_ENC_KEY (.vStr K))) (some ui))
      CONF_ENC_KEY = some (.vStr K) := by
    simp [make_prefill, dget, dgetD, CONF_USERNAME, CONF_PASSWORD,
      CONF_ENC_KEY, henc1]
    rw [dget_dset_same]
    rfl
  have hnf : ∀ cloud2 data2, dget data2 CONF_ENC_KEY = some (.vStr K) →
      CallEvent.fetchEncKey ∉ (test_rtsp_credentials cloud2 data2).2 := by
    intro cloud2 data2 hd2
    rw [test_rtsp_credentials_trace_eq, rtspStage1_fetchEnc, hd2]
    intro hc
    exact hK (Val.vStr.inj (Option.some.inj hc))
  rcases hk with rfl | rfl | rfl | rfl | rfl <;>
    exact ⟨_, hfin, henc1, hpre, hnf⟩

/-- C7 witness: the theorem applied at a concrete record and an oracle
whose verification-code fetch fails with a device error — the prefill
keeps the fetched key `KEY9`. -/
theorem C7_partial_data_preserved_witness :
    dget (make_prefill [] false
        (some (dset
          [("password", .vStr "fetch_my_key"),
           ("enc_key", .vStr "fetch_my_key"), ("serial", .vStr "C666"),
           ("cloud_account_username", .vStr "user@example.com")]
          CONF_ENC_KEY (.vStr "KEY9"))) (some []))
      CONF_ENC_KEY = some (.vStr "KEY9") := by
  obtain ⟨k2, h1, h2, h3, h4⟩ := C7_partial_data_preserved
    { camKey := fun _ => .ok (.vStr "KEY9")
      camAuthCode := fun _ _ => .error (.ez .deviceException none)
      send2fa := .ok ()
      detectionSensibility := .ok ()
      rtspTest := fun _ _ _ => .ok () }
    [("password", .vStr "fetch_my_key"), ("enc_key", .vStr "fetch_my_key"),
     ("serial", .vStr "C666"),
     ("cloud_account_username", .vStr "user@example.com")]
    "KEY9" .deviceException none [] [] false
    (by decide) (by decide) rfl (by decide) (by decide) rfl (Or.inl rfl)
  exact h3

/-! ## C8 — one-time codes are discarded after one attempt -/

/-- C8: the record returned by a successful `_test_rtsp_credentials` call
contains none of the ephemeral keys
(`cam_verification_2fa_code`, `cam_encryption_2fa_code`,
`ephemeral_test_rtsp`, `ip_address`, `cloud_account_username`), and the
per-camera options record persisted by the camera-edit steps never
contains any of them either (it has exactly the five credential/stream
fields). -/
theorem C8_ephemerals_discarded (cloud : Cloud) (data d : Dict)
    (h : (test_rtsp_credentials cloud data).1 = .ok d) :
    dget d CONF_CAM_VERIFICATION_2FA_CODE = none ∧
    dget d CONF_CAM_ENC_2FA_CODE = none ∧
    dget d EPHEMERAL_TEST_RTSP = none ∧
    dget d CONF_IP_ADDRESS = none ∧
    dget d CLOUD_ACCOUNT_USERNAME = none ∧
    (∀ resolved old rec, persisted_cam_record resolved old = .ok rec →
      dget rec CONF_CAM_VERIFICATION_2FA_CODE = none ∧
      dget rec CONF_CAM_ENC_2FA_CODE = none ∧
      dget rec EPHEMERAL_TEST_RTSP = none ∧
      dget rec CONF_IP_ADDRESS = none ∧
      dget rec CLOUD_ACCOUNT_USERNAME = none) := by
  obtain ⟨x, hx1, hx2⟩ := test_rtsp_credentials_ok cloud data d h
  have hd := finalizeResolved_ok x d hx2
  subst hd
  refine ⟨?_, ?_, ?_, ?_, ?_, ?_⟩
  · rw [dget_dpop_other _ _ _ (by decide), dget_dpop_other _ _ _ (by decide),
      dget_dpop_other _ _ _ (by decide), dget_dpop_other _ _ _ (by decide),
      dget_dpop_same]
  · rw [dget_dpop_other _ _ _ (by decide), dget_dpop_other _ _ _ (by decide),
      dget_dpop_other _ _ _ (by decide), dget_dpop_same]
  · rw [dget_dpop_other _ _ _ (by decide), dget_dpop_other _ _ _ (by decide),
      dget_dpop_same]
  · rw [dget_dpop_other _ _ _ (by decide), dget_dpop_same]
  · rw [dget_dpop_same]
  · intro resolved old rec hrec
    rcases h1 : dget resolved CONF_USERNAME with _ | u <;>
      rw [persisted_cam_record, h1] at hrec
    · exact Except.noConfusion hrec
    · rcases h2 : dget resolved CONF_PASSWORD with _ | p <;> rw [h2] at hrec
      · exact Except.noConfusion hrec
      · rcases h3 : dget resolved CONF_ENC_KEY with _ | ek <;> rw [h3] at hrec
        · exact Except.noConfusion hrec
        · rcases h4 : dget resolved CONF_RTSP_USES_VERIFICATION_CODE
            with _ | flag <;> rw [h4] at hrec
          · exact Except.noConfusion hrec
          · have hr : _ = rec := Except.ok.inj hrec
            subst hr
            exact ⟨rfl, rfl, rfl, rfl, rfl⟩

/-- C8 witness: a concrete successful resolution — the returned dict and
the persisted record contain no ephemeral key. -/
theorem C8_ephemerals_discarded_witness :
    dget [("enc_key", Val.vStr "K"), ("password", Val.vStr "P")]
      CLOUD_ACCOUNT_USERNAME = none ∧
    dget [("enc_key", Val.vStr "K"), ("password", Val.vStr "P")]
      CONF_CAM_VERIFICATION_2FA_CODE = none := by
  have h := C8_ephemerals_discarded
    { camKey := fun _ => .ok (.vStr "X")
      camAuthCode := fun _ _ => .ok (.vStr "Y")
      send2fa := .ok ()
      detectionSensibility := .ok ()
      rtspTest := fun _ _ _ => .ok () }
    [("enc_key", .vStr "K"), ("password", .vStr "P"),
     ("cloud_account_username", .vStr "user@example.com")]
    [("enc_key", .vStr "K"), ("password", .vStr "P")] rfl
  exact ⟨h.2.2.2.2.1, h.1⟩

end HaEzviz
